import Mathlib

/-!
# weapp payment client: embedding and checked properties

A shallow embedding of the Go packages `payment`, `notify` and `util` of the
weapp library.  Go values are rendered as follows.

* `string` is `String`, `int` and `int64` are `Int` (no arithmetic is done on
  them, only comparison with zero and decimal printing).
* `error` is `Option String` (the message; `none` is `nil`), and a Go result
  pair `(T, error)` is `Except String T`.
* `map[string]string` is an association list with unique keys (`StrMap`).
* A method with a pointer receiver returns the receiver as it is left by the
  call, next to the Go result.
* Functions of other packages (XML and JSON codecs, the HTTP client, the
  signer, the decryption, the random source) are arguments of the embedded
  functions.
* The child elements that `xml.Marshal` emits for a request are read off the
  struct tags of the request type (`UnifiedOrder.xmlEntries`).
-/

set_option autoImplicit false

namespace weapp

/-! ## Go maps from string to string -/

/-- Association list standing for a Go `map[string]string`. -/
abbrev StrMap := List (String × String)

namespace StrMap

/-- The value bound to `k`, as in the Go expression `v, ok := m[k]`. -/
def find (m : StrMap) (k : String) : Option String :=
  match m with
  | [] => none
  | (k1, v1) :: rest => if k1 = k then some v1 else find rest k

/-- The Go assignment `m[k] = v`: overwrite the binding of `k` or add one. -/
def put (m : StrMap) (k v : String) : StrMap :=
  match m with
  | [] => [(k, v)]
  | (k1, v1) :: rest => if k1 = k then (k, v) :: rest else (k1, v1) :: put rest k v

/-- The keys bound in the map. -/
def keys (m : StrMap) : List String := m.map Prod.fst

/-- The values bound in the map. -/
def values (m : StrMap) : List String := m.map Prod.snd

end StrMap

/-! ## package util -/

namespace rand

/-- Go `rand.Intn(n)` at the `i`-th draw of the random source `rnd`: a number
in the half-open interval from 0 to `n`. -/
def Intn (rnd : Nat → Nat) (i : Nat) (n : Nat) : Nat := rnd i % n

end rand

namespace util

/-- The alphabet of `NonceStr` (`base` in the source; every byte is ASCII, so
bytes and characters coincide). -/
def NonceStr.base : List Char := "abcdefghijklmnopqrstuvwxyz0123456789".toList

/-- Go `util.NonceStr(length)`: the loop runs for `idx = 0 .. length-1` and
appends `base[rand.Intn(baseLength)]` each time. -/
def NonceStr (rnd : Nat → Nat) (length : Int) : String :=
  let base := NonceStr.base
  let baseLength := base.length
  String.mk ((List.range length.toNat).map fun idx =>
    let number := rand.Intn rnd idx baseLength
    base.getD number '?')

end util

/-! ## package payment: base.go -/

namespace xml

/-- Go `xml.Name`. -/
structure Name where
  Space : String := ""
  Local : String := ""
  deriving DecidableEq, Repr

end xml

namespace payment

/-- Go `payment.BaseParam`. -/
structure BaseParam where
  XMLName : xml.Name := {}
  AppID : String := ""
  MchID : String := ""
  NonceStr : String := ""
  Sign : String := ""
  SignType : String := ""
  TotalFee : Int := 0
  deriving DecidableEq, Repr

/-- Go `payment.BaseResponse`. -/
structure BaseResponse where
  XMLName : xml.Name := {}
  ReturnCode : String := ""
  ReturnMsg : String := ""
  ResultCode : String := ""
  ErrCode : String := ""
  ErrCodeDes : String := ""
  AppID : String := ""
  MchID : String := ""
  NonceStr : String := ""
  Sign : String := ""
  SignType : String := ""
  deriving DecidableEq, Repr

/-- Go `BaseResponse.ReturnCheck` (base.go, lines 39-49). -/
def BaseResponse.ReturnCheck (res : BaseResponse) : Option String :=
  if res.ReturnCode = "SUCCESS" then
    none
  else if res.ReturnCode = "FAIL" then
    some res.ErrCodeDes
  else
    some ("未知微信返回状态码: " ++ res.ReturnCode)

/-- Go `BaseResponse.ResultCheck` (base.go, lines 52-62). -/
def BaseResponse.ResultCheck (res : BaseResponse) : Option String :=
  if res.ResultCode = "SUCCESS" then
    none
  else if res.ResultCode = "FAIL" then
    some res.ErrCodeDes
  else
    some ("未知微信返回业务结果代码: " ++ res.ResultCode)

end payment

/-! ## Library functions used by the clients -/

namespace strconv

/-- Go `strconv.FormatInt(i, base)`: optional minus sign, then the digits of
the absolute value. -/
def FormatInt (i : Int) (base : Nat) : String :=
  (if i < 0 then "-" else "") ++ String.mk (Nat.toDigits base i.natAbs)

/-- Go `strconv.Itoa(i)`, which is `FormatInt(int64(i), 10)`. -/
def Itoa (i : Int) : String := FormatInt i 10

end strconv

namespace http

/-- The part of Go `http.Response` the clients read. -/
structure Response where
  StatusCode : Int := 0
  Body : String := ""
  deriving DecidableEq, Repr

end http

/-- A call made to a collaborator outside the embedded functions, with its
arguments, recorded in the order the calls are made; `Req` is the type of
the request that is marshalled. -/
inductive Call (Req : Type) where
  | SignByMD5 (data : StrMap)
  | Marshal (req : Req)
  | Post (url contentType body : String)
  | Decode (body : String)
  deriving DecidableEq, Repr

/-- Collaborators of a request method: the signer `util.SignByMD5`, the
printer `net.IP.String`, `xml.Marshal` on the request, `http.Post`, the JSON
decoder applied to the response body, and the constant
`weapp.WeChatServerError`. -/
structure Deps (Req Resp : Type) where
  SignByMD5 : StrMap → Except String String
  IPString : List UInt8 → String
  Marshal : Req → Except String String
  Post : String → String → String → Except String http.Response
  Decode : String → Except String Resp
  WeChatServerError : String

/-- Outcome of a request method with a pointer receiver: the receiver as the
call leaves it, the collaborator calls made, and the Go result. -/
structure Run (O R : Type) where
  recv : O
  calls : List (Call O)
  ret : Except String R

namespace payment

/-- Go constant `baseURI`. -/
def baseURI : String := "https://api.mch.weixin.qq.com"

/-! ## package payment: unifiedorder.go -/

/-- Go constant `unifyAPI`. -/
def unifyAPI : String := "/pay/unifiedorder"

/-- Go `payment.FrontPayParams`. -/
structure FrontPayParams where
  Timestamp : Int := 0
  NonceStr : String := ""
  SignType : String := ""
  PaySign : String := ""
  Package : String := ""
  deriving DecidableEq, Repr

/-- Go `payment.UnifiedOrder`; `SPBillCreateIP` is a `net.IP`, a byte slice
that may be `nil`. -/
structure UnifiedOrder extends BaseParam where
  NotifyURL : String := ""
  OpenID : String := ""
  DeviceInfo : String := ""
  Body : String := ""
  Detail : String := ""
  Attach : String := ""
  OutTradeNo : String := ""
  FeeType : String := ""
  SPBillCreateIP : Option (List UInt8) := none
  TimeStart : String := ""
  TimeExpire : String := ""
  GoodsTag : String := ""
  TradeType : String := ""
  LimitPay : String := ""
  deriving DecidableEq, Repr

/-- Go `payment.UnifiedOrderResponse`. -/
structure UnifiedOrderResponse extends BaseResponse where
  DeviceInfo : String := ""
  TradeType : String := ""
  PrepayID : String := ""
  CodeUrl : String := ""
  deriving DecidableEq, Repr

/-- Lines 65-148 of Go `UnifiedOrder.Unify`: field checks and assembly of the
parameter map.  Returns the order as left at the point of return together
with either the validation error or the assembled map. -/
def UnifiedOrder.Unify.assemble (ipString : List UInt8 → String) (rnd : Nat → Nat)
    (o : UnifiedOrder) : UnifiedOrder × Except String StrMap :=
  let data : StrMap := []
  if o.AppID = "" then (o, .error "app_id 不能为空") else
  let data := data.put "appid" o.AppID
  if o.MchID = "" then (o, .error "mch_id 不能为空") else
  let data := data.put "mch_id" o.MchID
  let data := if o.DeviceInfo ≠ "" then data.put "device_info" o.DeviceInfo else data
  let o := if o.NonceStr = "" then { o with NonceStr := util.NonceStr rnd 6 } else o
  let data := data.put "nonce_str" o.NonceStr
  let o := { o with SignType := "MD5" }
  let data := data.put "sign_type" "MD5"
  if o.Body = "" then (o, .error "body 不能为空") else
  let data := data.put "body" o.Body
  let data := if o.Detail ≠ "" then data.put "detail" o.Detail else data
  let data := if o.Attach ≠ "" then data.put "attach" o.Attach else data
  if o.OutTradeNo = "" then (o, .error "out_trade_no 不能为空") else
  let data := data.put "out_trade_no" o.OutTradeNo
  let data := if o.FeeType ≠ "" then data.put "fee_type" o.FeeType else data
  if o.TotalFee = 0 then (o, .error "total_fee 不能为空") else
  let data := data.put "total_fee" (strconv.Itoa o.TotalFee)
  match o.SPBillCreateIP with
  | none => (o, .error "spbill_create_ip 不能为空")
  | some ip =>
  let data := data.put "spbill_create_ip" (ipString ip)
  let data := if o.TimeStart ≠ "" then data.put "time_start" o.TimeStart else data
  let data := if o.TimeExpire ≠ "" then data.put "time_expire" o.TimeExpire else data
  let data := if o.GoodsTag ≠ "" then data.put "goods_tag" o.GoodsTag else data
  if o.NotifyURL = "" then (o, .error "notify_url 不能为空") else
  let data := data.put "notify_url" o.NotifyURL
  let o := { o with TradeType := "JSAPI" }
  let data := data.put "trade_type" o.TradeType
  let data := if o.LimitPay ≠ "" then data.put "limit_pay" o.LimitPay else data
  if o.OpenID = "" then (o, .error "openid 不能为空") else
  let data := data.put "openid" o.OpenID
  (o, .ok data)

/-- Go `UnifiedOrder.Unify` (unifiedorder.go, lines 62-187). -/
def UnifiedOrder.Unify (d : Deps UnifiedOrder UnifiedOrderResponse) (rnd : Nat → Nat)
    (o : UnifiedOrder) : Run UnifiedOrder UnifiedOrderResponse :=
  match UnifiedOrder.Unify.assemble d.IPString rnd o with
  | (o, .error err) => ⟨o, [], .error err⟩
  | (o, .ok data) =>
    match d.SignByMD5 data with
    | .error err => ⟨o, [.SignByMD5 data], .error err⟩
    | .ok sign =>
      let o := { o with Sign := sign }
      match d.Marshal o with
      | .error err => ⟨o, [.SignByMD5 data, .Marshal o], .error err⟩
      | .ok body =>
        let url := baseURI ++ unifyAPI
        let calls := [.SignByMD5 data, .Marshal o, .Post url "application/xml" body]
        match d.Post url "application/xml" body with
        | .error err => ⟨o, calls, .error err⟩
        | .ok res =>
          if res.StatusCode ≠ 200 then ⟨o, calls, .error d.WeChatServerError⟩ else
          match d.Decode res.Body with
          | .error err => ⟨o, calls ++ [.Decode res.Body], .error err⟩
          | .ok resp =>
            match resp.ReturnCheck with
            | some err => ⟨o, calls ++ [.Decode res.Body], .error err⟩
            | none =>
              match resp.ResultCheck with
              | some err => ⟨o, calls ++ [.Decode res.Body], .error err⟩
              | none => ⟨o, calls ++ [.Decode res.Body], .ok resp⟩

/-- The map literal that Go `UnifiedOrderResponse.GetParams` passes to
`util.SignByMD5` (unifiedorder.go, lines 195-202). -/
def UnifiedOrderResponse.GetParams.data (res : UnifiedOrderResponse) (key : String)
    (timestamp : Int) : StrMap :=
  [("key", key),
   ("appId", res.AppID),
   ("signType", "MD5"),
   ("nonceStr", res.NonceStr),
   ("package", "prepay_id" ++ "=" ++ res.PrepayID),
   ("timeStamp", strconv.FormatInt timestamp 10)]

/-- Go `UnifiedOrderResponse.GetParams` (unifiedorder.go, lines 193-215). -/
def UnifiedOrderResponse.GetParams (SignByMD5 : StrMap → Except String String)
    (res : UnifiedOrderResponse) (key : String) (timestamp : Int) :
    Except String FrontPayParams :=
  match SignByMD5 (UnifiedOrderResponse.GetParams.data res key timestamp) with
  | .error err => .error err
  | .ok sign =>
    let p : FrontPayParams :=
      { Timestamp := timestamp
        NonceStr := res.NonceStr
        SignType := "MD5"
        PaySign := sign }
    .ok p

/-! ## package payment: refund.go -/

/-- Go constant `refundAPI`. -/
def refundAPI : String := "/secapi/pay/refund"

/-- Go `payment.Refunder`. -/
structure Refunder extends BaseParam where
  TransactionID : String := ""
  OutTradeNo : String := ""
  OutRefundNo : String := ""
  RefundFee : Int := 0
  RefundFeeType : String := ""
  RefundDesc : String := ""
  RefundAccount : String := ""
  NotifyURL : String := ""
  deriving DecidableEq, Repr

/-- Go `payment.RefundResponse`. -/
structure RefundResponse extends BaseResponse where
  TransactionID : String := ""
  OutTradeNo : String := ""
  OutRefundNo : String := ""
  RefundID : String := ""
  RefundFee : Int := 0
  SettlementRefundFee : Int := 0
  TotalFee : Int := 0
  SettlementTotalFee : Int := 0
  FeeType : String := ""
  CashFee : Int := 0
  CashFeeType : String := ""
  CashRefundFee : Int := 0
  deriving DecidableEq, Repr

/-- Lines 63-122 of Go `Refunder.Refund`: field checks and assembly of the
parameter map.  Returns the request as left at the point of return together
with either the validation error or the assembled map. -/
def Refunder.Refund.assemble (rnd : Nat → Nat) (r : Refunder) :
    Refunder × Except String StrMap :=
  let data : StrMap := []
  if r.AppID = "" then (r, .error "app_id 不能为空") else
  let data := data.put "appid" r.AppID
  if r.MchID = "" then (r, .error "mch_id 不能为空") else
  let data := data.put "mch_id" r.MchID
  let r := if r.NonceStr = "" then { r with NonceStr := util.NonceStr rnd 6 } else r
  let data := data.put "nonce_str" r.NonceStr
  let r := { r with SignType := "MD5" }
  let data := data.put "sign_type" "MD5"
  if r.TransactionID = "" ∧ r.OutTradeNo = "" then
    (r, .error "out_trade_no 和 out_trade_no 必须填写一个") else
  let data := if r.TransactionID ≠ "" then data.put "transaction_id" r.TransactionID else data
  let data := if r.OutTradeNo = "" then data.put "out_trade_no" r.OutTradeNo else data
  if r.OutRefundNo = "" then (r, .error "out_refund_no 不能为空") else
  let data := data.put "out_refund_no" r.OutRefundNo
  if r.TotalFee = 0 then (r, .error "total_fee 不能为空") else
  let data := data.put "total_fee" (strconv.Itoa r.TotalFee)
  if r.RefundFee = 0 then (r, .error "refund_fee 不能为空") else
  let data := data.put "refund_fee" (strconv.Itoa r.RefundFee)
  let data := if r.RefundFeeType ≠ "" then data.put "refund_fee_type" r.RefundFeeType else data
  let data := if r.RefundDesc ≠ "" then data.put "refund_desc" r.RefundDesc else data
  let data := if r.RefundAccount ≠ "" then data.put "refund_account" r.RefundAccount else data
  let data := if r.NotifyURL ≠ "" then data.put "notify_url" r.NotifyURL else data
  (r, .ok data)

/-- Go `Refunder.Refund` (refund.go, lines 60-159). -/
def Refunder.Refund (d : Deps Refunder RefundResponse) (rnd : Nat → Nat)
    (r : Refunder) : Run Refunder RefundResponse :=
  match Refunder.Refund.assemble rnd r with
  | (r, .error err) => ⟨r, [], .error err⟩
  | (r, .ok data) =>
    match d.SignByMD5 data with
    | .error err => ⟨r, [.SignByMD5 data], .error err⟩
    | .ok sign =>
      let r := { r with Sign := sign }
      match d.Marshal r with
      | .error err => ⟨r, [.SignByMD5 data, .Marshal r], .error err⟩
      | .ok body =>
        let url := baseURI ++ refundAPI
        let calls := [.SignByMD5 data, .Marshal r, .Post url "application/xml" body]
        match d.Post url "application/xml" body with
        | .error err => ⟨r, calls, .error err⟩
        | .ok res =>
          if res.StatusCode ≠ 200 then ⟨r, calls, .error d.WeChatServerError⟩ else
          match d.Decode res.Body with
          | .error err => ⟨r, calls ++ [.Decode res.Body], .error err⟩
          | .ok resp =>
            match resp.ReturnCheck with
            | some err => ⟨r, calls ++ [.Decode res.Body], .error err⟩
            | none =>
              match resp.ResultCheck with
              | some err => ⟨r, calls ++ [.Decode res.Body], .error err⟩
              | none => ⟨r, calls ++ [.Decode res.Body], .ok resp⟩

end payment

/-! ## package notify: payment.go -/

namespace notify

open payment

/-- Go `notify.PaidNotify`. -/
structure PaidNotify extends BaseResponse where
  DeviceInfo : String := ""
  OpenID : String := ""
  IsSubscribe : String := ""
  TradeType : String := ""
  BankType : String := ""
  TotalFee : Int := 0
  SettlementTotalFee : Int := 0
  FeeType : String := ""
  CashFee : String := ""
  CashFeeType : String := ""
  TransactionID : String := ""
  OutTradeNo : String := ""
  Attach : String := ""
  TimeEnd : String := ""
  deriving DecidableEq, Repr

/-- Go `notify.ParsePaidNotify` (payment.go, lines 31-51); `Unmarshal` is
`xml.Unmarshal` into a fresh `PaidNotify`. -/
def ParsePaidNotify (Unmarshal : List UInt8 → Except String PaidNotify)
    (requestBody : List UInt8) : Except String PaidNotify :=
  if requestBody.length = 0 then .error "支付回调参数为空" else
  match Unmarshal requestBody with
  | .error err => .error err
  | .ok ntf =>
    match ntf.ReturnCheck with
    | some err => .error err
    | none =>
      match ntf.ResultCheck with
      | some err => .error err
      | none => .ok ntf

end notify

/-! ## The refunded callback (notify/payment.go) -/

deriving instance DecidableEq for Except

namespace notify

open payment

/-- Go `notify.RefundedReqInfo`. -/
structure RefundedReqInfo where
  XMLName : xml.Name := {}
  TransactionID : String := ""
  OutTradeNo : String := ""
  RefundID : String := ""
  OutRefundNo : String := ""
  TotalFee : Int := 0
  SettlementRefundFee : Int := 0
  RefundFee : Int := 0
  SettlementTotalFee : Int := 0
  RefundStatus : String := ""
  SuccessTime : String := ""
  RefundRecvAccout : String := ""
  RefundAccount : String := ""
  RefundRequestSource : String := ""
  deriving DecidableEq, Repr

/-- Go `notify.RefundedNotify`; the pointer field is `none` when nil. -/
structure RefundedNotify extends BaseResponse where
  ReqInfoStr : String := ""
  RefundedReqInfo : Option RefundedReqInfo := none
  deriving DecidableEq, Repr

/-- Outcome of `ParseRefundedNotify`: the argument pairs (ciphertext, key) of
the calls made to `util.AesECBDecrypt`, in order, and the Go result. -/
structure RefundedRun where
  decrypts : List (String × String)
  ret : Except String RefundedNotify
  deriving DecidableEq

/-- Go `notify.ParseRefundedNotify` (payment.go, lines 89-118).  `Unmarshal`
is `xml.Unmarshal` into a fresh `RefundedNotify`, `AesECBDecrypt` is
`util.AesECBDecrypt`, and `UnmarshalInfo` is `xml.Unmarshal` of the bytes of
the decrypted string into a fresh `RefundedReqInfo`. -/
def ParseRefundedNotify (Unmarshal : List UInt8 → Except String RefundedNotify)
    (AesECBDecrypt : String → String → Except String String)
    (UnmarshalInfo : String → Except String RefundedReqInfo)
    (requestBody : List UInt8) (key : String) : RefundedRun :=
  if requestBody.length = 0 then ⟨[], .error "支付回调参数为空"⟩ else
  match Unmarshal requestBody with
  | .error err => ⟨[], .error err⟩
  | .ok rtf =>
    match rtf.ReturnCheck with
    | some err => ⟨[], .error err⟩
    | none =>
      match AesECBDecrypt rtf.ReqInfoStr key with
      | .error err => ⟨[(rtf.ReqInfoStr, key)], .error err⟩
      | .ok reqInfoStr =>
        match UnmarshalInfo reqInfoStr with
        | .error err => ⟨[(rtf.ReqInfoStr, key)], .error err⟩
        | .ok rtfReqInfo =>
          let rtf := { rtf with RefundedReqInfo := some rtfReqInfo }
          ⟨[(rtf.ReqInfoStr, key)], .ok rtf⟩

end notify

/-! ## Entries of a map and of an envelope -/

/-- A candidate entry: a key and a value, with the condition under which
the entry is present. -/
structure Entry where
  present : Prop
  [dec : Decidable present]
  key : String
  value : String

instance (e : Entry) : Decidable e.present := e.dec

namespace StrMap

/-- One guarded assignment: `if present { m[key] = value }`. -/
def step (m : StrMap) (e : Entry) : StrMap :=
  if e.present then m.put e.key e.value else m

/-- The map obtained from the empty map by the guarded assignments `es`, in
order. -/
def build (es : List Entry) : StrMap :=
  es.foldl step []

/-- The entries of `es` that are present, as pairs, in order. -/
def present (es : List Entry) : StrMap :=
  (es.filter fun e => decide e.present).map fun e => (e.key, e.value)

end StrMap

namespace net

/-- Go `net.hexString`: two lower-case hexadecimal digits for each byte. -/
def hexString (b : List UInt8) : String :=
  let hexDigit := "0123456789abcdef".toList
  String.mk (b.flatMap fun x => [hexDigit.getD (x.toNat / 16) '0', hexDigit.getD (x.toNat % 16) '0'])

/-- Go `net.IP.MarshalText`: the empty text for an address of length 0, the
error of an `AddrError` for a length other than 4 and 16, and the text of
`String()` otherwise. -/
def IP.MarshalText (ipString : List UInt8 → String) (ip : List UInt8) :
    Except String String :=
  if ip.length = 0 then .ok ""
  else if ip.length ≠ 4 ∧ ip.length ≠ 16 then
    .error ("address " ++ hexString ip ++ ": " ++ "invalid IP address")
  else .ok (ipString ip)

end net

namespace xml

/-- Go `xml.isInCharacterRange`: the characters XML 1.0 allows. -/
def isInCharacterRange (c : Char) : Bool :=
  let r := c.toNat
  r == 0x09 || r == 0x0A || r == 0x0D ||
    (0x20 ≤ r && r ≤ 0xD7FF) ||
    (0xE000 ≤ r && r ≤ 0xFFFD) ||
    (0x10000 ≤ r && r ≤ 0x10FFFF)

/-- The character data that a reader of the envelope finds in an element
whose text `xml.Marshal` wrote from the string `s` with `EscapeText`: the
entities written for the quotes, `&`, `<`, `>`, tab, newline and return read
back as the character itself, and a character outside the XML range is
written as U+FFFD.  (A string here is valid Unicode; Go writes U+FFFD for a
byte that is not valid UTF-8 as well.) -/
def charData (s : String) : String :=
  String.mk (s.toList.map fun c => if isInCharacterRange c then c else '\uFFFD')

end xml

namespace payment

/-- The order as `Unify` leaves it after line 86: a nonce generated when
none was supplied, and `SignType` overwritten. -/
def UnifiedOrder.Unify.stamped (rnd : Nat → Nat) (o : UnifiedOrder) : UnifiedOrder :=
  let o := if o.NonceStr = "" then { o with NonceStr := util.NonceStr rnd 6 } else o
  { o with SignType := "MD5" }

/-- The order as `Unify` leaves it after line 138: `stamped`, and `TradeType`
overwritten. -/
def UnifiedOrder.Unify.final (rnd : Nat → Nat) (o : UnifiedOrder) : UnifiedOrder :=
  { UnifiedOrder.Unify.stamped rnd o with TradeType := "JSAPI" }

/-- The assignments to `data` in `Unify`, in source order, each with its
guard, read on the order `o` as the checks leave it; `ipText` is the text of
`SPBillCreateIP.String()`. -/
def UnifiedOrder.Unify.entries (ipText : String) (o : UnifiedOrder) : List Entry :=
  [ { present := True, key := "appid", value := o.AppID },
    { present := True, key := "mch_id", value := o.MchID },
    { present := o.DeviceInfo ≠ "", key := "device_info", value := o.DeviceInfo },
    { present := True, key := "nonce_str", value := o.NonceStr },
    { present := True, key := "sign_type", value := "MD5" },
    { present := True, key := "body", value := o.Body },
    { present := o.Detail ≠ "", key := "detail", value := o.Detail },
    { present := o.Attach ≠ "", key := "attach", value := o.Attach },
    { present := True, key := "out_trade_no", value := o.OutTradeNo },
    { present := o.FeeType ≠ "", key := "fee_type", value := o.FeeType },
    { present := True, key := "total_fee", value := strconv.Itoa o.TotalFee },
    { present := True, key := "spbill_create_ip", value := ipText },
    { present := o.TimeStart ≠ "", key := "time_start", value := o.TimeStart },
    { present := o.TimeExpire ≠ "", key := "time_expire", value := o.TimeExpire },
    { present := o.GoodsTag ≠ "", key := "goods_tag", value := o.GoodsTag },
    { present := True, key := "notify_url", value := o.NotifyURL },
    { present := True, key := "trade_type", value := o.TradeType },
    { present := o.LimitPay ≠ "", key := "limit_pay", value := o.LimitPay },
    { present := True, key := "openid", value := o.OpenID } ]

/-- The fields that Go `xml.Marshal` emits as child elements of the root
`xml` for a `UnifiedOrder`, each with the text it is given to write, read off
the struct tags of `BaseParam` (base.go, lines 12-20) and `UnifiedOrder`
(unifiedorder.go, lines 31-49) in field order: a field tagged `omitempty` is
emitted when it is not the empty string, every other field always; an `int`
is printed in decimal; `ipText` is the text that `MarshalText` gives for
`SPBillCreateIP`. -/
def UnifiedOrder.xmlEntries (ipText : String) (o : UnifiedOrder) : List Entry :=
  [ { present := True, key := "appid", value := o.AppID },
    { present := True, key := "mch_id", value := o.MchID },
    { present := True, key := "nonce_str", value := o.NonceStr },
    { present := True, key := "sign", value := o.Sign },
    { present := o.SignType ≠ "", key := "sign_type", value := o.SignType },
    { present := True, key := "total_fee", value := strconv.FormatInt o.TotalFee 10 },
    { present := True, key := "notify_url", value := o.NotifyURL },
    { present := True, key := "openid", value := o.OpenID },
    { present := o.DeviceInfo ≠ "", key := "device_info", value := o.DeviceInfo },
    { present := True, key := "body", value := o.Body },
    { present := o.Detail ≠ "", key := "detail", value := o.Detail },
    { present := o.Attach ≠ "", key := "attach", value := o.Attach },
    { present := True, key := "out_trade_no", value := o.OutTradeNo },
    { present := o.FeeType ≠ "", key := "fee_type", value := o.FeeType },
    { present := True, key := "spbill_create_ip", value := ipText },
    { present := o.TimeStart ≠ "", key := "time_start", value := o.TimeStart },
    { present := o.TimeExpire ≠ "", key := "time_expire", value := o.TimeExpire },
    { present := o.GoodsTag ≠ "", key := "goods_tag", value := o.GoodsTag },
    { present := True, key := "trade_type", value := o.TradeType },
    { present := o.LimitPay ≠ "", key := "limit_pay", value := o.LimitPay } ]

/-- The child elements of the envelope that `xml.Marshal` produces for a
`UnifiedOrder`, each as its name and the character data a reader finds in
it, or the error of `MarshalText` on the address. -/
def UnifiedOrder.xmlChildren (ipString : List UInt8 → String) (o : UnifiedOrder) :
    Except String StrMap :=
  let ip : List UInt8 :=
    match o.SPBillCreateIP with
    | none => []
    | some ip => ip
  match net.IP.MarshalText ipString ip with
  | .error err => .error err
  | .ok ipText =>
    .ok ((StrMap.present (UnifiedOrder.xmlEntries ipText o)).map fun kv =>
      (kv.1, xml.charData kv.2))

/-- The pre-conditions of `Unify` as the specification states them (`app_id`,
`mch_id`, `body`, `out_trade_no`, `total_fee > 0`, `spbill_create_ip`,
`notify_url`, `open_id` present), in that order, each as the test that it is
violated, with the message of the error of that field. -/
def UnifiedOrder.Unify.specPreconditions (o : UnifiedOrder) : List (Bool × String) :=
  [ (decide (o.AppID = ""), "app_id 不能为空"),
    (decide (o.MchID = ""), "mch_id 不能为空"),
    (decide (o.Body = ""), "body 不能为空"),
    (decide (o.OutTradeNo = ""), "out_trade_no 不能为空"),
    (decide (¬ 0 < o.TotalFee), "total_fee 不能为空"),
    (decide (o.SPBillCreateIP = none), "spbill_create_ip 不能为空"),
    (decide (o.NotifyURL = ""), "notify_url 不能为空"),
    (decide (o.OpenID = ""), "openid 不能为空") ]

/-- The message of the first pre-condition of the specification that is
violated, if any. -/
def UnifiedOrder.Unify.specFirstViolation (o : UnifiedOrder) : Option String :=
  ((UnifiedOrder.Unify.specPreconditions o).find? fun p => p.1).map fun p => p.2

/-- The pre-conditions with `total_fee` read as a presence check: the same
fields in the same order, `total_fee` being violated when it is zero (and not
when it is negative), each as the test that it is violated, with the message
of its error. -/
def UnifiedOrder.Unify.preconditions (o : UnifiedOrder) : List (Bool × String) :=
  [ (decide (o.AppID = ""), "app_id 不能为空"),
    (decide (o.MchID = ""), "mch_id 不能为空"),
    (decide (o.Body = ""), "body 不能为空"),
    (decide (o.OutTradeNo = ""), "out_trade_no 不能为空"),
    (decide (o.TotalFee = 0), "total_fee 不能为空"),
    (decide (o.SPBillCreateIP = none), "spbill_create_ip 不能为空"),
    (decide (o.NotifyURL = ""), "notify_url 不能为空"),
    (decide (o.OpenID = ""), "openid 不能为空") ]

/-- The message of the first violated pre-condition of `preconditions`, if
any. -/
def UnifiedOrder.Unify.firstViolation (o : UnifiedOrder) : Option String :=
  ((UnifiedOrder.Unify.preconditions o).find? fun p => p.1).map fun p => p.2

end payment

/-! ## Concrete inputs used to evaluate the embedding -/

namespace sample

open payment notify

/-- A stand-in signer: it succeeds on every map and returns the entries
joined as `k=v` with `&` between them, in the order of the list. -/
def signer (data : StrMap) : Except String String :=
  .ok (String.intercalate "&" (data.map fun kv => kv.1 ++ "=" ++ kv.2))

/-- A stand-in for `net.IP.String`: the bytes in decimal, joined by dots. -/
def ipString (ip : List UInt8) : String :=
  String.intercalate "." (ip.map fun b => toString b.toNat)

/-- A fixed sequence of draws of the random source. -/
def rnd (i : Nat) : Nat := 7 * i + 3

/-- The order of scenario S1. -/
def order : UnifiedOrder :=
  { AppID := "wx1", MchID := "100", NonceStr := "abcdef", TotalFee := 1,
    NotifyURL := "http://x", OpenID := "OID", Body := "test", OutTradeNo := "T1",
    SPBillCreateIP := some [127, 0, 0, 1] }

/-- The gateway response of scenario S1. -/
def okResponse : UnifiedOrderResponse :=
  { ReturnCode := "SUCCESS", ResultCode := "SUCCESS", PrepayID := "WX999",
    NonceStr := "srv", AppID := "wx1", MchID := "100" }

/-- A refund request naming the order by `out_trade_no` only. -/
def refund : Refunder :=
  { AppID := "wx1", MchID := "100", NonceStr := "abcdef", TotalFee := 1,
    OutTradeNo := "T1", OutRefundNo := "R1", RefundFee := 1 }

/-- A gateway response to a refund request. -/
def refundOk : RefundResponse :=
  { ReturnCode := "SUCCESS", ResultCode := "SUCCESS", OutRefundNo := "R1" }

/-- A stub gateway for `Unify`: every collaborator succeeds, the HTTP status
is 200 and the decoded response is `resp`. -/
def unifyDeps (resp : UnifiedOrderResponse) : Deps UnifiedOrder UnifiedOrderResponse :=
  { SignByMD5 := signer
    IPString := ipString
    Marshal := fun o => .ok ("<xml><sign>" ++ o.Sign ++ "</sign></xml>")
    Post := fun _ _ _ => .ok { StatusCode := 200, Body := "response" }
    Decode := fun _ => .ok resp
    WeChatServerError := "server error" }

/-- A stub gateway for `Refund`, as `unifyDeps`. -/
def refundDeps (resp : RefundResponse) : Deps Refunder RefundResponse :=
  { SignByMD5 := signer
    IPString := ipString
    Marshal := fun r => .ok ("<xml><sign>" ++ r.Sign ++ "</sign></xml>")
    Post := fun _ _ _ => .ok { StatusCode := 200, Body := "response" }
    Decode := fun _ => .ok resp
    WeChatServerError := "server error" }

/-- A paid callback as decoded from the wire. -/
def paid : PaidNotify :=
  { ReturnCode := "SUCCESS", ResultCode := "SUCCESS", AppID := "wx1", MchID := "100",
    NonceStr := "n1", Sign := "0123456789ABCDEF0123456789ABCDEF", OpenID := "OID",
    TotalFee := 100, OutTradeNo := "T1", TransactionID := "42" }

/-- A non-empty request body. -/
def body : List UInt8 := [60, 120, 109, 108, 47, 62]

/-- The sign of `paid` replaced by another 32-digit value. -/
def paidOtherSign : PaidNotify :=
  { paid with Sign := "FFFFFFFFFFFFFFFFFFFFFFFFFFFFFFFF" }

/-- The callback `paid` with another `total_fee` and the sign unchanged. -/
def paidOtherFee : PaidNotify :=
  { paid with TotalFee := 1 }

/-- Case-insensitive equality of two strings, the comparison the
specification prescribes between a received and a recomputed signature.  It
is not called by the embedded code. -/
def equalFold (s t : String) : Bool :=
  s.toList.map Char.toUpper == t.toList.map Char.toUpper

/-- A refund request naming the order by both identifiers. -/
def refundBoth : Refunder :=
  { refund with TransactionID := "42" }

/-- A refund request naming the order by `transaction_id` only. -/
def refundByTransaction : Refunder :=
  { refund with TransactionID := "42", OutTradeNo := "" }

/-- A refund request with neither identifier. -/
def refundNoIds : Refunder :=
  { refund with OutTradeNo := "" }

end sample

end weapp

/-! ## Properties -/

namespace weapp

open payment notify

/-! ### Response validation (base.go) -/

theorem ReturnCheck_eq_none (res : BaseResponse) :
    res.ReturnCheck = none ↔ res.ReturnCode = "SUCCESS" := by
  unfold BaseResponse.ReturnCheck
  split
  · simp [*]
  · split <;> simp [*]

theorem ResultCheck_eq_none (res : BaseResponse) :
    res.ResultCheck = none ↔ res.ResultCode = "SUCCESS" := by
  unfold BaseResponse.ResultCheck
  split
  · simp [*]
  · split <;> simp [*]

/-- The two checks in sequence, as the three callers run them on a decoded
response `res`, with `ok` the value returned on acceptance. -/
theorem two_layer_seq {α : Type} (res : BaseResponse) (ok : α) :
    let out : Except String α :=
      match res.ReturnCheck with
      | some err => .error err
      | none =>
        match res.ResultCheck with
        | some err => .error err
        | none => .ok ok
    (out = .ok ok ↔ res.ReturnCode = "SUCCESS" ∧ res.ResultCode = "SUCCESS") ∧
    (res.ReturnCode ≠ "SUCCESS" → ∃ e, res.ReturnCheck = some e ∧ out = .error e) := by
  intro out
  cases h1 : res.ReturnCheck with
  | some e =>
    have hne : res.ReturnCode ≠ "SUCCESS" := by
      intro h; rw [(ReturnCheck_eq_none _).2 h] at h1; cases h1
    simp [out, h1, hne]
  | none =>
    have hrc := (ReturnCheck_eq_none _).1 h1
    cases h2 : res.ResultCheck with
    | some e =>
      have hne : res.ResultCode ≠ "SUCCESS" := by
        intro h; rw [(ResultCheck_eq_none _).2 h] at h2; cases h2
      simp [out, h1, h2, hne, hrc]
    | none =>
      have := (ResultCheck_eq_none _).1 h2
      simp [out, h1, h2, this, hrc]

/-- Claim C1, evaluated on the code: for the response of scenario S2
(`return_code` FAIL, `return_msg` 签名错误, no business fields) `ReturnCheck`
returns an error with the empty message, not the `return_msg`; and a response
with the same `return_code` and `return_msg` but an `err_code_des` gets a
different error, namely that `err_code_des`. -/
theorem ReturnCheck_fail_reads_err_code_des :
    BaseResponse.ReturnCheck { ReturnCode := "FAIL", ReturnMsg := "签名错误" } = some "" ∧
    BaseResponse.ReturnCheck
      { ReturnCode := "FAIL", ReturnMsg := "签名错误", ErrCodeDes := "订单已支付" }
      = some "订单已支付" := by
  decide

theorem paid_two_layer (Unmarshal : List UInt8 → Except String PaidNotify)
    (body : List UInt8) (ntf : PaidNotify) (hb : body ≠ []) (hd : Unmarshal body = .ok ntf) :
    (ParsePaidNotify Unmarshal body = .ok ntf ↔
        ntf.ReturnCode = "SUCCESS" ∧ ntf.ResultCode = "SUCCESS") ∧
    (ntf.ReturnCode ≠ "SUCCESS" →
        ∃ e, ntf.ReturnCheck = some e ∧ ParsePaidNotify Unmarshal body = .error e) := by
  have hlen : body.length ≠ 0 := by simpa using hb
  have key := two_layer_seq ntf.toBaseResponse ntf
  simp only [] at key
  unfold ParsePaidNotify
  simp only [hlen, if_false, hd]
  exact key

theorem unify_two_layer (d : Deps UnifiedOrder UnifiedOrderResponse) (rnd : Nat → Nat)
    (o : UnifiedOrder) (b : String) (resp : UnifiedOrderResponse)
    (hc : (UnifiedOrder.Unify d rnd o).calls.getLast? = some (.Decode b))
    (hd : d.Decode b = .ok resp) :
    ((UnifiedOrder.Unify d rnd o).ret = .ok resp ↔
        resp.ReturnCode = "SUCCESS" ∧ resp.ResultCode = "SUCCESS") ∧
    (resp.ReturnCode ≠ "SUCCESS" →
        ∃ e, resp.ReturnCheck = some e ∧ (UnifiedOrder.Unify d rnd o).ret = .error e) := by
  have key := two_layer_seq resp.toBaseResponse resp
  rcases h1 : UnifiedOrder.Unify.assemble d.IPString rnd o with ⟨o1, r1⟩
  cases r1 with
  | error e => simp [UnifiedOrder.Unify, h1] at hc
  | ok data =>
    cases h2 : d.SignByMD5 data with
    | error e => simp [UnifiedOrder.Unify, h1, h2] at hc
    | ok sign =>
      cases h3 : d.Marshal { o1 with Sign := sign } with
      | error e => simp [UnifiedOrder.Unify, h1, h2, h3] at hc
      | ok body =>
        cases h4 : d.Post (baseURI ++ unifyAPI) "application/xml" body with
        | error e => simp [UnifiedOrder.Unify, h1, h2, h3, h4] at hc
        | ok res =>
          by_cases hs : res.StatusCode = 200
          · have hb : res.Body = b := by
              simp only [UnifiedOrder.Unify, h1, h2, h3, h4, hs] at hc
              revert hc
              cases d.Decode res.Body with
              | error e => simp
              | ok r =>
                intro hc
                repeat' split at hc
                all_goals simp at hc
                all_goals exact hc
            subst hb
            simp only [UnifiedOrder.Unify, h1, h2, h3, h4, hs, hd]
            simp only [] at key
            repeat' split
            all_goals simp_all
          · simp [UnifiedOrder.Unify, h1, h2, h3, h4, hs] at hc

theorem refund_two_layer (d : Deps Refunder RefundResponse) (rnd : Nat → Nat)
    (r : Refunder) (b : String) (resp : RefundResponse)
    (hc : (Refunder.Refund d rnd r).calls.getLast? = some (.Decode b))
    (hd : d.Decode b = .ok resp) :
    ((Refunder.Refund d rnd r).ret = .ok resp ↔
        resp.ReturnCode = "SUCCESS" ∧ resp.ResultCode = "SUCCESS") ∧
    (resp.ReturnCode ≠ "SUCCESS" →
        ∃ e, resp.ReturnCheck = some e ∧ (Refunder.Refund d rnd r).ret = .error e) := by
  have key := two_layer_seq resp.toBaseResponse resp
  rcases h1 : Refunder.Refund.assemble rnd r with ⟨r1, q1⟩
  cases q1 with
  | error e => simp [Refunder.Refund, h1] at hc
  | ok data =>
    cases h2 : d.SignByMD5 data with
    | error e => simp [Refunder.Refund, h1, h2] at hc
    | ok sign =>
      cases h3 : d.Marshal { r1 with Sign := sign } with
      | error e => simp [Refunder.Refund, h1, h2, h3] at hc
      | ok body =>
        cases h4 : d.Post (baseURI ++ refundAPI) "application/xml" body with
        | error e => simp [Refunder.Refund, h1, h2, h3, h4] at hc
        | ok res =>
          by_cases hs : res.StatusCode = 200
          · have hb : res.Body = b := by
              simp only [Refunder.Refund, h1, h2, h3, h4, hs] at hc
              revert hc
              cases d.Decode res.Body with
              | error e => simp
              | ok r =>
                intro hc
                repeat' split at hc
                all_goals simp at hc
                all_goals exact hc
            subst hb
            simp only [Refunder.Refund, h1, h2, h3, h4, hs, hd]
            simp only [] at key
            repeat' split
            all_goals simp_all
          · simp [Refunder.Refund, h1, h2, h3, h4, hs] at hc

/-- Claim C2: on a decoded response, the validation run by `ParsePaidNotify`,
`Unify` and `Refund` accepts (returns the decoded response) exactly when
`return_code` and `result_code` are both SUCCESS, and when `return_code` is
not SUCCESS the error returned is the one `ReturnCheck` gives.  For `Unify`
and `Refund` the decoded response is the one the decoder returned on the body
of the last recorded collaborator call. -/
theorem two_layer_validation :
    (∀ (Unmarshal : List UInt8 → Except String PaidNotify) (body : List UInt8)
        (ntf : PaidNotify), body ≠ [] → Unmarshal body = .ok ntf →
      (ParsePaidNotify Unmarshal body = .ok ntf ↔
          ntf.ReturnCode = "SUCCESS" ∧ ntf.ResultCode = "SUCCESS") ∧
      (ntf.ReturnCode ≠ "SUCCESS" →
          ∃ e, ntf.ReturnCheck = some e ∧ ParsePaidNotify Unmarshal body = .error e)) ∧
    (∀ (d : Deps UnifiedOrder UnifiedOrderResponse) (rnd : Nat → Nat) (o : UnifiedOrder)
        (b : String) (resp : UnifiedOrderResponse),
      (UnifiedOrder.Unify d rnd o).calls.getLast? = some (.Decode b) →
      d.Decode b = .ok resp →
      ((UnifiedOrder.Unify d rnd o).ret = .ok resp ↔
          resp.ReturnCode = "SUCCESS" ∧ resp.ResultCode = "SUCCESS") ∧
      (resp.ReturnCode ≠ "SUCCESS" →
          ∃ e, resp.ReturnCheck = some e ∧ (UnifiedOrder.Unify d rnd o).ret = .error e)) ∧
    (∀ (d : Deps Refunder RefundResponse) (rnd : Nat → Nat) (r : Refunder)
        (b : String) (resp : RefundResponse),
      (Refunder.Refund d rnd r).calls.getLast? = some (.Decode b) →
      d.Decode b = .ok resp →
      ((Refunder.Refund d rnd r).ret = .ok resp ↔
          resp.ReturnCode = "SUCCESS" ∧ resp.ResultCode = "SUCCESS") ∧
      (resp.ReturnCode ≠ "SUCCESS" →
          ∃ e, resp.ReturnCheck = some e ∧ (Refunder.Refund d rnd r).ret = .error e)) :=
  ⟨paid_two_layer, unify_two_layer, refund_two_layer⟩

/-- Claim C2 at concrete inputs: the paid callback `sample.paid` and the
gateway responses of the stub gateways are accepted by the three callers, and
a callback with `return_code` FAIL is rejected with the error of
`ReturnCheck`. -/
theorem two_layer_validation_witness :
    ParsePaidNotify (fun _ => .ok sample.paid) sample.body = .ok sample.paid ∧
    (UnifiedOrder.Unify (sample.unifyDeps sample.okResponse) sample.rnd sample.order).ret
      = .ok sample.okResponse ∧
    (Refunder.Refund (sample.refundDeps sample.refundOk) sample.rnd sample.refund).ret
      = .ok sample.refundOk ∧
    (∃ e, BaseResponse.ReturnCheck { ReturnCode := "FAIL", ErrCodeDes := "x" } = some e ∧
      ParsePaidNotify (fun _ => .ok { ReturnCode := "FAIL", ErrCodeDes := "x" }) sample.body
        = .error e) :=
  ⟨(two_layer_validation.1 (fun _ => .ok sample.paid) sample.body sample.paid
      (by decide) rfl).1.2 ⟨by decide, by decide⟩,
   (two_layer_validation.2.1 (sample.unifyDeps sample.okResponse) sample.rnd sample.order
      "response" sample.okResponse (by decide) rfl).1.2 ⟨by decide, by decide⟩,
   (two_layer_validation.2.2 (sample.refundDeps sample.refundOk) sample.rnd sample.refund
      "response" sample.refundOk (by decide) rfl).1.2 ⟨by decide, by decide⟩,
   (two_layer_validation.1 (fun _ => .ok { ReturnCode := "FAIL", ErrCodeDes := "x" })
      sample.body { ReturnCode := "FAIL", ErrCodeDes := "x" } (by decide) rfl).2
      (by decide)⟩

/-- Claim C3, refuted as stated: two responses with `result_code` FAIL that
differ in `err_code` (ORDERPAID and SYSTEMERROR) and agree on `err_code_des`
get the same error from `ResultCheck`, and the error of scenario S3 is the
`err_code_des` alone. -/
theorem ResultCheck_fail_ignores_err_code :
    BaseResponse.ResultCheck
        { ReturnCode := "SUCCESS", ResultCode := "FAIL", ErrCode := "ORDERPAID",
          ErrCodeDes := "订单已支付" }
      = BaseResponse.ResultCheck
        { ReturnCode := "SUCCESS", ResultCode := "FAIL", ErrCode := "SYSTEMERROR",
          ErrCodeDes := "订单已支付" } ∧
    BaseResponse.ResultCheck
        { ReturnCode := "SUCCESS", ResultCode := "FAIL", ErrCode := "ORDERPAID",
          ErrCodeDes := "订单已支付" }
      = some "订单已支付" := by
  decide

/-- Claim C3, amended: for every response whose `result_code` is FAIL,
`ResultCheck` returns an error whose message is exactly `err_code_des`; the
error is the same for every `err_code`. -/
theorem ResultCheck_fail_carries_err_code_des (res : BaseResponse)
    (h : res.ResultCode = "FAIL") :
    res.ResultCheck = some res.ErrCodeDes ∧
    ∀ code : String, BaseResponse.ResultCheck { res with ErrCode := code } = res.ResultCheck := by
  simp [BaseResponse.ResultCheck, h]

/-- Claim C3, amended, at the response of scenario S3. -/
theorem ResultCheck_fail_carries_err_code_des_witness :
    BaseResponse.ResultCheck
        { ReturnCode := "SUCCESS", ResultCode := "FAIL", ErrCode := "ORDERPAID",
          ErrCodeDes := "订单已支付" }
      = some "订单已支付" :=
  (ResultCheck_fail_carries_err_code_des
    { ReturnCode := "SUCCESS", ResultCode := "FAIL", ErrCode := "ORDERPAID",
      ErrCodeDes := "订单已支付" } rfl).1


/-! ### Front-end pay parameters (unifiedorder.go) -/

/-- Claim C4, evaluated on the code: whatever the signer, response, key and
timestamp, the `FrontPayParams` that `GetParams` returns when the signer
succeeds has `Timestamp`, `NonceStr`, `SignType` and `PaySign` set and
`Package` left at the empty string; for the response of scenario S1
(`prepay_id` WX999) the returned `Package` is empty, not `prepay_id=WX999`. -/
theorem GetParams_leaves_package_empty :
    (∀ (SignByMD5 : StrMap → Except String String) (res : UnifiedOrderResponse)
        (key : String) (t : Int),
      res.GetParams SignByMD5 key t =
        (SignByMD5 (UnifiedOrderResponse.GetParams.data res key t)).map fun sign =>
          { Timestamp := t, NonceStr := res.NonceStr, SignType := "MD5", PaySign := sign,
            Package := "" }) ∧
    (sample.okResponse.GetParams sample.signer "abc" 1700000000).map (·.Package) = .ok "" ∧
    "prepay_id=" ++ sample.okResponse.PrepayID = "prepay_id=WX999" := by
  refine ⟨?_, by decide, by decide⟩
  intro SignByMD5 res key t
  unfold UnifiedOrderResponse.GetParams
  cases SignByMD5 (UnifiedOrderResponse.GetParams.data res key t) <;> rfl

/-- Claim C5, refuted as stated: for the response of scenario S1, key `abc`
and timestamp 1700000000 the map handed to the signer has six entries, the
first of which binds `key` to the merchant secret. -/
theorem GetParams_data_has_key_entry :
    UnifiedOrderResponse.GetParams.data sample.okResponse "abc" 1700000000 =
      [("key", "abc"), ("appId", "wx1"), ("signType", "MD5"), ("nonceStr", "srv"),
       ("package", "prepay_id=WX999"), ("timeStamp", "1700000000")] ∧
    (UnifiedOrderResponse.GetParams.data sample.okResponse "abc" 1700000000).find "key"
      = some "abc" ∧
    (UnifiedOrderResponse.GetParams.data sample.okResponse "abc" 1700000000).length = 6 := by
  decide

/-- Claim C5, amended: the map handed to the signer binds exactly the six
keys `key`, `appId`, `signType`, `nonceStr`, `package`, `timeStamp`, to the
merchant secret, `res.AppID`, MD5, `res.NonceStr`, `prepay_id=` followed by
`res.PrepayID`, and the decimal string of `t`; and when `GetParams` returns
parameters `p`, `p.PaySign` is the output of the signer on that map. -/
theorem GetParams_signs_six_entries (SignByMD5 : StrMap → Except String String)
    (res : UnifiedOrderResponse) (key : String) (t : Int) (p : FrontPayParams)
    (h : res.GetParams SignByMD5 key t = .ok p) :
    (∀ k : String, (UnifiedOrderResponse.GetParams.data res key t).find k =
      if k = "key" then some key
      else if k = "appId" then some res.AppID
      else if k = "signType" then some "MD5"
      else if k = "nonceStr" then some res.NonceStr
      else if k = "package" then some ("prepay_id=" ++ res.PrepayID)
      else if k = "timeStamp" then some (strconv.FormatInt t 10)
      else none) ∧
    (UnifiedOrderResponse.GetParams.data res key t).keys =
      ["key", "appId", "signType", "nonceStr", "package", "timeStamp"] ∧
    SignByMD5 (UnifiedOrderResponse.GetParams.data res key t) = .ok p.PaySign := by
  refine ⟨?_, rfl, ?_⟩
  · intro k
    simp only [UnifiedOrderResponse.GetParams.data, StrMap.find, eq_comm (b := k)]
    have hp : "prepay_id" ++ "=" ++ res.PrepayID = "prepay_id=" ++ res.PrepayID := by
      rw [show ("prepay_id" : String) ++ "=" = "prepay_id=" from by decide]
    rw [hp]
  · unfold UnifiedOrderResponse.GetParams at h
    cases hs : SignByMD5 (UnifiedOrderResponse.GetParams.data res key t) with
    | error e => simp [hs] at h
    | ok sign =>
      simp only [hs, Except.ok.injEq] at h
      rw [← h]

/-- Claim C5, amended, at scenario S1 with the stand-in signer: the signed map
binds `timeStamp` to 1700000000 and `key` to the secret, and `PaySign` is the
signer's output on the six entries. -/
theorem GetParams_signs_six_entries_witness :
    (UnifiedOrderResponse.GetParams.data sample.okResponse "abc" 1700000000).find "timeStamp"
      = some "1700000000" ∧
    sample.signer (UnifiedOrderResponse.GetParams.data sample.okResponse "abc" 1700000000)
      = .ok "key=abc&appId=wx1&signType=MD5&nonceStr=srv&package=prepay_id=WX999&timeStamp=1700000000" :=
  have h := GetParams_signs_six_entries sample.signer sample.okResponse "abc" 1700000000
    { Timestamp := 1700000000, NonceStr := "srv", SignType := "MD5",
      PaySign := "key=abc&appId=wx1&signType=MD5&nonceStr=srv&package=prepay_id=WX999&timeStamp=1700000000" }
    (by decide)
  ⟨(h.1 "timeStamp").trans (by decide), h.2.2⟩


/-! ### Local validation of requests (unifiedorder.go, refund.go) -/

theorem unify_assemble_ok_iff (ipString : List UInt8 → String) (rnd : Nat → Nat)
    (o : UnifiedOrder) :
    (∃ data, (UnifiedOrder.Unify.assemble ipString rnd o).2 = .ok data) ↔
      o.AppID ≠ "" ∧ o.MchID ≠ "" ∧ o.Body ≠ "" ∧ o.OutTradeNo ≠ "" ∧ o.NotifyURL ≠ "" ∧
      o.OpenID ≠ "" ∧ o.SPBillCreateIP ≠ none ∧ o.TotalFee ≠ 0 := by
  unfold UnifiedOrder.Unify.assemble
  lift_lets
  extract_lets data0 data1 data2 data3 o1 data4 o2 data5 data6 data7 data8 data9 data10 data11 o3
  have e2 : o2.Body = o.Body ∧ o2.OutTradeNo = o.OutTradeNo ∧ o2.TotalFee = o.TotalFee ∧
      o2.SPBillCreateIP = o.SPBillCreateIP ∧ o2.NotifyURL = o.NotifyURL ∧
      o2.OpenID = o.OpenID := by
    simp only [o2, o1]
    split <;> simp
  obtain ⟨eb, eo, et, es, en, ei⟩ := e2
  by_cases h1 : o.AppID = ""
  · rw [if_pos h1]; simp [h1]
  rw [if_neg h1]
  by_cases h2 : o.MchID = ""
  · rw [if_pos h2]; simp [h2]
  rw [if_neg h2]
  by_cases h3 : o.Body = ""
  · rw [if_pos (eb.trans h3)]; simp [h3]
  rw [if_neg (by rw [eb]; exact h3)]
  by_cases h4 : o.OutTradeNo = ""
  · rw [if_pos (eo.trans h4)]; simp [h4]
  rw [if_neg (by rw [eo]; exact h4)]
  by_cases h5 : o.TotalFee = 0
  · rw [if_pos (et.trans h5)]; simp [h5]
  rw [if_neg (by rw [et]; exact h5)]
  rw [es]
  cases h6 : o.SPBillCreateIP with
  | none => simp
  | some ip =>
    simp only []
    by_cases h7 : o.NotifyURL = ""
    · rw [if_pos (en.trans h7)]; simp [h7]
    rw [if_neg (by rw [en]; exact h7)]
    have ei3 : o3.OpenID = o.OpenID := ei
    by_cases h8 : o.OpenID = ""
    · rw [if_pos (ei3.trans h8)]; simp [h8]
    rw [if_neg (by rw [ei3]; exact h8)]
    simp [h1, h2, h3, h4, h5, h7, h8]


theorem unify_calls_of_assemble (d : Deps UnifiedOrder UnifiedOrderResponse)
    (rnd : Nat → Nat) (o : UnifiedOrder) :
    (∀ e, (UnifiedOrder.Unify.assemble d.IPString rnd o).2 = .error e →
      (UnifiedOrder.Unify d rnd o).calls = [] ∧ (UnifiedOrder.Unify d rnd o).ret = .error e) ∧
    (∀ data, (UnifiedOrder.Unify.assemble d.IPString rnd o).2 = .ok data →
      (UnifiedOrder.Unify d rnd o).calls.head? = some (.SignByMD5 data)) := by
  rcases h1 : UnifiedOrder.Unify.assemble d.IPString rnd o with ⟨o1, r1⟩
  cases r1 with
  | error e0 => simp [UnifiedOrder.Unify, h1]
  | ok data0 =>
    refine ⟨by simp, ?_⟩
    intro data hdata
    simp only [Except.ok.injEq] at hdata
    subst hdata
    simp only [UnifiedOrder.Unify, h1]
    repeat' split
    all_goals simp

/-- Claim C6, refuted as stated: the order of scenario S1 with `total_fee`
set to -1 passes the local checks of `Unify`: the first collaborator call of
the run is the signer, on a map that binds `total_fee` to -1. -/
theorem Unify_accepts_negative_total_fee :
    (UnifiedOrder.Unify (sample.unifyDeps sample.okResponse) sample.rnd
        { sample.order with TotalFee := -1 }).calls.head?
      = some (.SignByMD5
          [("appid", "wx1"), ("mch_id", "100"), ("nonce_str", "abcdef"), ("sign_type", "MD5"),
           ("body", "test"), ("out_trade_no", "T1"), ("total_fee", "-1"),
           ("spbill_create_ip", "127.0.0.1"), ("notify_url", "http://x"),
           ("trade_type", "JSAPI"), ("openid", "OID")]) ∧
    ¬ (0 < ({ sample.order with TotalFee := -1 } : UnifiedOrder).TotalFee) := by
  decide

/-- Claim C6, amended: `Unify` reaches the signing step (its first
collaborator call is the signer) exactly when `app_id`, `mch_id`, `body`,
`out_trade_no`, `notify_url` and `open_id` are non-empty, `spbill_create_ip`
is not nil and `total_fee` is different from zero; otherwise it makes no
collaborator call and returns an error.  In particular an order with
`total_fee` equal to zero is rejected locally. -/
theorem Unify_reaches_signing_iff (d : Deps UnifiedOrder UnifiedOrderResponse)
    (rnd : Nat → Nat) (o : UnifiedOrder) :
    ((∃ data, (UnifiedOrder.Unify d rnd o).calls.head? = some (.SignByMD5 data)) ↔
      o.AppID ≠ "" ∧ o.MchID ≠ "" ∧ o.Body ≠ "" ∧ o.OutTradeNo ≠ "" ∧ o.NotifyURL ≠ "" ∧
      o.OpenID ≠ "" ∧ o.SPBillCreateIP ≠ none ∧ o.TotalFee ≠ 0) ∧
    (¬ (o.AppID ≠ "" ∧ o.MchID ≠ "" ∧ o.Body ≠ "" ∧ o.OutTradeNo ≠ "" ∧ o.NotifyURL ≠ "" ∧
        o.OpenID ≠ "" ∧ o.SPBillCreateIP ≠ none ∧ o.TotalFee ≠ 0) →
      (UnifiedOrder.Unify d rnd o).calls = [] ∧
      ∃ e, (UnifiedOrder.Unify d rnd o).ret = .error e) ∧
    (o.TotalFee = 0 → (UnifiedOrder.Unify d rnd o).calls = []) := by
  have hiff := unify_assemble_ok_iff d.IPString rnd o
  have hc := unify_calls_of_assemble d rnd o
  have hrej : ¬ (o.AppID ≠ "" ∧ o.MchID ≠ "" ∧ o.Body ≠ "" ∧ o.OutTradeNo ≠ "" ∧
        o.NotifyURL ≠ "" ∧ o.OpenID ≠ "" ∧ o.SPBillCreateIP ≠ none ∧ o.TotalFee ≠ 0) →
      (UnifiedOrder.Unify d rnd o).calls = [] ∧
      ∃ e, (UnifiedOrder.Unify d rnd o).ret = .error e := by
    intro hn
    cases hr : (UnifiedOrder.Unify.assemble d.IPString rnd o).2 with
    | ok data => exact absurd (hiff.1 ⟨data, hr⟩) hn
    | error e => exact ⟨(hc.1 e hr).1, e, (hc.1 e hr).2⟩
  refine ⟨⟨?_, ?_⟩, hrej, ?_⟩
  · rintro ⟨data, hd⟩
    by_contra hn
    rw [(hrej hn).1] at hd
    simp at hd
  · intro hcond
    obtain ⟨data, hd⟩ := hiff.2 hcond
    exact ⟨data, hc.2 data hd⟩
  · intro hz
    exact (hrej (fun h => h.2.2.2.2.2.2.2 hz)).1

/-- Claim C6, amended, at concrete orders: the order of scenario S1 reaches
the signer, and the same order with `total_fee` zero makes no collaborator
call. -/
theorem Unify_reaches_signing_iff_witness :
    (∃ data, (UnifiedOrder.Unify (sample.unifyDeps sample.okResponse) sample.rnd
        sample.order).calls.head? = some (.SignByMD5 data)) ∧
    (UnifiedOrder.Unify (sample.unifyDeps sample.okResponse) sample.rnd
        { sample.order with TotalFee := 0 }).calls = [] :=
  ⟨(Unify_reaches_signing_iff (sample.unifyDeps sample.okResponse) sample.rnd
      sample.order).1.2 (by decide),
   (Unify_reaches_signing_iff (sample.unifyDeps sample.okResponse) sample.rnd
      { sample.order with TotalFee := 0 }).2.2 rfl⟩


theorem refund_assemble_ok_iff (rnd : Nat → Nat) (r : Refunder) :
    (∃ data, (Refunder.Refund.assemble rnd r).2 = .ok data) ↔
      r.AppID ≠ "" ∧ r.MchID ≠ "" ∧ ¬ (r.TransactionID = "" ∧ r.OutTradeNo = "") ∧
      r.OutRefundNo ≠ "" ∧ r.TotalFee ≠ 0 ∧ r.RefundFee ≠ 0 := by
  unfold Refunder.Refund.assemble
  lift_lets
  extract_lets data0 data1 data2 r1 data3 r2 data4 data5 data6 data7 data8 data9 data10 data11 data12 data13
  have e2 : r2.TransactionID = r.TransactionID ∧ r2.OutTradeNo = r.OutTradeNo ∧
      r2.OutRefundNo = r.OutRefundNo ∧ r2.TotalFee = r.TotalFee ∧
      r2.RefundFee = r.RefundFee := by
    simp only [r2, r1]
    split <;> simp
  obtain ⟨et, eo, er, ef, eg⟩ := e2
  by_cases h1 : r.AppID = ""
  · rw [if_pos h1]; simp [h1]
  rw [if_neg h1]
  by_cases h2 : r.MchID = ""
  · rw [if_pos h2]; simp [h2]
  rw [if_neg h2]
  rw [et, eo, er, ef, eg]
  by_cases h3 : r.TransactionID = "" ∧ r.OutTradeNo = ""
  · rw [if_pos h3]; simp [h3]
  rw [if_neg h3]
  by_cases h4 : r.OutRefundNo = ""
  · rw [if_pos h4]; simp [h4]
  rw [if_neg h4]
  by_cases h5 : r.TotalFee = 0
  · rw [if_pos h5]; simp [h5]
  rw [if_neg h5]
  by_cases h6 : r.RefundFee = 0
  · rw [if_pos h6]; simp [h6]
  rw [if_neg h6]
  simp [h1, h2, h3, h4, h5, h6]

theorem refund_calls_of_assemble (d : Deps Refunder RefundResponse)
    (rnd : Nat → Nat) (r : Refunder) :
    (∀ e, (Refunder.Refund.assemble rnd r).2 = .error e →
      (Refunder.Refund d rnd r).calls = [] ∧ (Refunder.Refund d rnd r).ret = .error e) ∧
    (∀ data, (Refunder.Refund.assemble rnd r).2 = .ok data →
      (Refunder.Refund d rnd r).calls.head? = some (.SignByMD5 data)) := by
  rcases h1 : Refunder.Refund.assemble rnd r with ⟨r1, q1⟩
  cases q1 with
  | error e0 => simp [Refunder.Refund, h1]
  | ok data0 =>
    refine ⟨by simp, ?_⟩
    intro data hdata
    simp only [Except.ok.injEq] at hdata
    subst hdata
    simp only [Refunder.Refund, h1]
    repeat' split
    all_goals simp


theorem refund_assemble_no_ids (rnd : Nat → Nat) (r : Refunder)
    (ht : r.TransactionID = "") (ho : r.OutTradeNo = "") :
    (Refunder.Refund.assemble rnd r).2 = .error
      (if r.AppID = "" then "app_id 不能为空"
       else if r.MchID = "" then "mch_id 不能为空"
       else "out_trade_no 和 out_trade_no 必须填写一个") := by
  unfold Refunder.Refund.assemble
  lift_lets
  extract_lets data0 data1 data2 r1 data3 r2 data4 data5 data6 data7 data8 data9 data10 data11
    data12 data13
  have e2 : r2.TransactionID = r.TransactionID ∧ r2.OutTradeNo = r.OutTradeNo := by
    simp only [r2, r1]
    split <;> simp
  by_cases h1 : r.AppID = ""
  · rw [if_pos h1, if_pos h1]
  rw [if_neg h1, if_neg h1]
  by_cases h2 : r.MchID = ""
  · rw [if_pos h2, if_pos h2]
  rw [if_neg h2, if_neg h2]
  rw [if_pos ⟨e2.1.trans ht, e2.2.trans ho⟩]

/-- Claim C7, refuted as stated: a refund request that supplies both
`transaction_id` and `out_trade_no` passes the local checks of `Refund` (the
first collaborator call is the signer), and so does a request whose
`total_fee` and `refund_fee` are negative. -/
theorem Refund_accepts_both_identifiers_and_negative_fees :
    sample.refundBoth.TransactionID ≠ "" ∧ sample.refundBoth.OutTradeNo ≠ "" ∧
    (Refunder.Refund (sample.refundDeps sample.refundOk) sample.rnd
        sample.refundBoth).calls.head?
      = some (.SignByMD5
          [("appid", "wx1"), ("mch_id", "100"), ("nonce_str", "abcdef"), ("sign_type", "MD5"),
           ("transaction_id", "42"), ("out_refund_no", "R1"), ("total_fee", "1"),
           ("refund_fee", "1")]) ∧
    (Refunder.Refund (sample.refundDeps sample.refundOk) sample.rnd
        { sample.refund with TotalFee := -5, RefundFee := -5 }).calls.head?
      = some (.SignByMD5
          [("appid", "wx1"), ("mch_id", "100"), ("nonce_str", "abcdef"), ("sign_type", "MD5"),
           ("out_refund_no", "R1"), ("total_fee", "-5"), ("refund_fee", "-5")]) := by
  decide

/-- Claim C7, amended: `Refund` reaches the signing step (its first
collaborator call is the signer) exactly when `app_id`, `mch_id` and
`out_refund_no` are non-empty, at least one of `transaction_id` and
`out_trade_no` is non-empty, and `total_fee` and `refund_fee` are different
from zero; otherwise it makes no collaborator call and returns an error. -/
theorem Refund_reaches_signing_iff (d : Deps Refunder RefundResponse)
    (rnd : Nat → Nat) (r : Refunder) :
    ((∃ data, (Refunder.Refund d rnd r).calls.head? = some (.SignByMD5 data)) ↔
      r.AppID ≠ "" ∧ r.MchID ≠ "" ∧ ¬ (r.TransactionID = "" ∧ r.OutTradeNo = "") ∧
      r.OutRefundNo ≠ "" ∧ r.TotalFee ≠ 0 ∧ r.RefundFee ≠ 0) ∧
    (¬ (r.AppID ≠ "" ∧ r.MchID ≠ "" ∧ ¬ (r.TransactionID = "" ∧ r.OutTradeNo = "") ∧
        r.OutRefundNo ≠ "" ∧ r.TotalFee ≠ 0 ∧ r.RefundFee ≠ 0) →
      (Refunder.Refund d rnd r).calls = [] ∧
      ∃ e, (Refunder.Refund d rnd r).ret = .error e) := by
  have hiff := refund_assemble_ok_iff rnd r
  have hc := refund_calls_of_assemble d rnd r
  have hrej : ¬ (r.AppID ≠ "" ∧ r.MchID ≠ "" ∧ ¬ (r.TransactionID = "" ∧ r.OutTradeNo = "") ∧
        r.OutRefundNo ≠ "" ∧ r.TotalFee ≠ 0 ∧ r.RefundFee ≠ 0) →
      (Refunder.Refund d rnd r).calls = [] ∧
      ∃ e, (Refunder.Refund d rnd r).ret = .error e := by
    intro hn
    cases hr : (Refunder.Refund.assemble rnd r).2 with
    | ok data => exact absurd (hiff.1 ⟨data, hr⟩) hn
    | error e => exact ⟨(hc.1 e hr).1, e, (hc.1 e hr).2⟩
  refine ⟨⟨?_, ?_⟩, hrej⟩
  · rintro ⟨data, hd⟩
    by_contra hn
    rw [(hrej hn).1] at hd
    simp at hd
  · intro hcond
    obtain ⟨data, hd⟩ := hiff.2 hcond
    exact ⟨data, hc.2 data hd⟩

/-- Claim C7, amended, at concrete requests: a request with both identifiers
reaches the signer, and a request with `refund_fee` zero makes no
collaborator call. -/
theorem Refund_reaches_signing_iff_witness :
    (∃ data, (Refunder.Refund (sample.refundDeps sample.refundOk) sample.rnd
        sample.refundBoth).calls.head? = some (.SignByMD5 data)) ∧
    (Refunder.Refund (sample.refundDeps sample.refundOk) sample.rnd
        { sample.refund with RefundFee := 0 }).calls = [] :=
  ⟨(Refund_reaches_signing_iff (sample.refundDeps sample.refundOk) sample.rnd
      sample.refundBoth).1.2 (by decide),
   ((Refund_reaches_signing_iff (sample.refundDeps sample.refundOk) sample.rnd
      { sample.refund with RefundFee := 0 }).2 (by decide)).1⟩

/-- Claim C8: a refund request with `transaction_id` and `out_trade_no` both
empty is rejected by the local checks, whatever its other fields and whatever
the collaborators: `Refund` calls neither the signer, the encoder, the HTTP
client nor the decoder, and returns the error of the first failed check
(`app_id`, then `mch_id`, then the identifiers). -/
theorem Refund_without_identifiers_rejected (d : Deps Refunder RefundResponse)
    (rnd : Nat → Nat) (r : Refunder)
    (ht : r.TransactionID = "") (ho : r.OutTradeNo = "") :
    (Refunder.Refund d rnd r).calls = [] ∧
    (Refunder.Refund d rnd r).ret = .error
      (if r.AppID = "" then "app_id 不能为空"
       else if r.MchID = "" then "mch_id 不能为空"
       else "out_trade_no 和 out_trade_no 必须填写一个") :=
  (refund_calls_of_assemble d rnd r).1 _ (refund_assemble_no_ids rnd r ht ho)

/-- Claim C8 at the request of scenario S4. -/
theorem Refund_without_identifiers_rejected_witness :
    (Refunder.Refund (sample.refundDeps sample.refundOk) sample.rnd sample.refundNoIds).calls
      = [] ∧
    (Refunder.Refund (sample.refundDeps sample.refundOk) sample.rnd sample.refundNoIds).ret
      = .error "out_trade_no 和 out_trade_no 必须填写一个" :=
  Refund_without_identifiers_rejected (sample.refundDeps sample.refundOk) sample.rnd
    sample.refundNoIds rfl rfl

/-! ### Paid callback (notify/payment.go) -/

/-- Claim C9, refuted as stated: `ParsePaidNotify` accepts the callback
`sample.paid`, the same callback with another sign (the two signs differ also
when case is ignored, so at most one of them can equal a signature recomputed
from the other fields), and the same callback with another `total_fee` and
the sign unchanged. -/
theorem ParsePaidNotify_accepts_any_sign :
    ParsePaidNotify (fun _ => .ok sample.paid) sample.body = .ok sample.paid ∧
    ParsePaidNotify (fun _ => .ok sample.paidOtherSign) sample.body
      = .ok sample.paidOtherSign ∧
    sample.equalFold sample.paid.Sign sample.paidOtherSign.Sign = false ∧
    sample.paidOtherSign = { sample.paid with Sign := sample.paidOtherSign.Sign } ∧
    ParsePaidNotify (fun _ => .ok sample.paidOtherFee) sample.body
      = .ok sample.paidOtherFee ∧
    sample.paidOtherFee.Sign = sample.paid.Sign ∧
    sample.paidOtherFee.TotalFee ≠ sample.paid.TotalFee := by
  decide

/-- Claim C9, amended: `ParsePaidNotify` does not read the sign.  A decoded
callback is accepted exactly when `return_code` and `result_code` are both
SUCCESS, and a callback that differs from it only in `sign` and `total_fee`
is accepted exactly when it is. -/
theorem ParsePaidNotify_ignores_sign (Unmarshal : List UInt8 → Except String PaidNotify)
    (body body2 : List UInt8) (ntf : PaidNotify) (sign : String) (fee : Int)
    (hb : body ≠ []) (hb2 : body2 ≠ []) (hd : Unmarshal body = .ok ntf)
    (hd2 : Unmarshal body2 = .ok { ntf with Sign := sign, TotalFee := fee }) :
    (ParsePaidNotify Unmarshal body = .ok ntf ↔
      ntf.ReturnCode = "SUCCESS" ∧ ntf.ResultCode = "SUCCESS") ∧
    (ParsePaidNotify Unmarshal body2 = .ok { ntf with Sign := sign, TotalFee := fee } ↔
      ParsePaidNotify Unmarshal body = .ok ntf) := by
  have h1 := (paid_two_layer Unmarshal body ntf hb hd).1
  have h2 := (paid_two_layer Unmarshal body2 _ hb2 hd2).1
  exact ⟨h1, h2.trans h1.symm⟩

/-- Claim C9, amended, at concrete callbacks: a decoder that maps one body to
`sample.paid` and any other body to the same callback with another sign and
`total_fee` has both callbacks accepted. -/
theorem ParsePaidNotify_ignores_sign_witness :
    ParsePaidNotify
      (fun b => if b = sample.body then .ok sample.paid
        else .ok { sample.paid with Sign := "FFFF", TotalFee := 1 })
      [1] = .ok { sample.paid with Sign := "FFFF", TotalFee := 1 } :=
  (ParsePaidNotify_ignores_sign
    (fun b => if b = sample.body then .ok sample.paid
      else .ok { sample.paid with Sign := "FFFF", TotalFee := 1 })
    sample.body [1] sample.paid "FFFF" 1 (by decide) (by decide) (by decide)
    (by decide)).2.2 (by decide)

/-! ### Parameter map of a refund (refund.go) -/

/-- Claim C10, evaluated on the code: for a valid refund request that names
the order by `out_trade_no` T1 the signed map has no `out_trade_no` entry (and
no identifier at all), and for a valid request that names it by
`transaction_id` only the signed map binds `out_trade_no` to the empty
string. -/
theorem Refund_out_trade_no_copied_when_empty :
    sample.refund.OutTradeNo = "T1" ∧
    (Refunder.Refund.assemble sample.rnd sample.refund).2 = .ok
      [("appid", "wx1"), ("mch_id", "100"), ("nonce_str", "abcdef"), ("sign_type", "MD5"),
       ("out_refund_no", "R1"), ("total_fee", "1"), ("refund_fee", "1")] ∧
    sample.refundByTransaction.OutTradeNo = "" ∧
    (Refunder.Refund.assemble sample.rnd sample.refundByTransaction).2 = .ok
      [("appid", "wx1"), ("mch_id", "100"), ("nonce_str", "abcdef"), ("sign_type", "MD5"),
       ("transaction_id", "42"), ("out_trade_no", ""), ("out_refund_no", "R1"),
       ("total_fee", "1"), ("refund_fee", "1")] ∧
    StrMap.find
      [("appid", "wx1"), ("mch_id", "100"), ("nonce_str", "abcdef"), ("sign_type", "MD5"),
       ("transaction_id", "42"), ("out_trade_no", ""), ("out_refund_no", "R1"),
       ("total_fee", "1"), ("refund_fee", "1")] "out_trade_no" = some "" := by
  decide

/-! ### The parameter map as a list of entries -/

theorem StrMap.put_fresh (m : StrMap) (k v : String) (h : k ∉ m.keys) :
    m.put k v = m ++ [(k, v)] := by
  induction m with
  | nil => rfl
  | cons a m ih =>
    obtain ⟨k1, v1⟩ := a
    have h1 : k1 ≠ k := by
      intro e; apply h; simp [StrMap.keys, e]
    have h2 : k ∉ StrMap.keys m := by
      intro e; apply h; simp only [StrMap.keys, List.map_cons, List.mem_cons]; right; exact e
    simp [StrMap.put, h1, ih h2]

theorem StrMap.foldl_present (es : List Entry) (acc : StrMap)
    (hk : (acc.keys ++ es.map (·.key)).Nodup) :
    es.foldl StrMap.step acc = acc ++ StrMap.present es := by
  induction es generalizing acc with
  | nil => simp [StrMap.present]
  | cons e es ih =>
    simp only [List.foldl_cons, StrMap.step]
    by_cases hp : e.present
    · have hfresh : e.key ∉ acc.keys := by
        intro hmem
        rw [List.nodup_append] at hk
        exact hk.2.2 hmem (by simp)
      rw [if_pos hp, StrMap.put_fresh _ _ _ hfresh, ih]
      · simp [StrMap.present, hp]
      · simpa [StrMap.keys, List.map_append, List.append_assoc] using hk
    · rw [if_neg hp, ih]
      · simp [StrMap.present, hp]
      · rw [List.nodup_append] at hk ⊢
        refine ⟨hk.1, (List.nodup_cons.1 hk.2.1).2, ?_⟩
        intro a ha hb
        exact hk.2.2 ha (List.mem_cons_of_mem _ hb)

theorem StrMap.build_eq (es : List Entry) (hk : (es.map (·.key)).Nodup) :
    StrMap.build es = StrMap.present es := by
  have := StrMap.foldl_present es [] (by simpa [StrMap.keys] using hk)
  simpa [StrMap.build] using this

theorem unify_entries_keys (ipText : String) (o : UnifiedOrder) :
    ((UnifiedOrder.Unify.entries ipText o).map (·.key)).Nodup := by
  simp [UnifiedOrder.Unify.entries]

theorem unify_assemble_eq (ipString : List UInt8 → String) (rnd : Nat → Nat)
    (o : UnifiedOrder) :
    UnifiedOrder.Unify.assemble ipString rnd o =
      if o.AppID = "" then (o, .error "app_id 不能为空")
      else if o.MchID = "" then (o, .error "mch_id 不能为空")
      else if o.Body = "" then (UnifiedOrder.Unify.stamped rnd o, .error "body 不能为空")
      else if o.OutTradeNo = "" then
        (UnifiedOrder.Unify.stamped rnd o, .error "out_trade_no 不能为空")
      else if o.TotalFee = 0 then
        (UnifiedOrder.Unify.stamped rnd o, .error "total_fee 不能为空")
      else
        match o.SPBillCreateIP with
        | none => (UnifiedOrder.Unify.stamped rnd o, .error "spbill_create_ip 不能为空")
        | some ip =>
          if o.NotifyURL = "" then
            (UnifiedOrder.Unify.stamped rnd o, .error "notify_url 不能为空")
          else if o.OpenID = "" then
            (UnifiedOrder.Unify.final rnd o, .error "openid 不能为空")
          else
            (UnifiedOrder.Unify.final rnd o,
              .ok (StrMap.present
                (UnifiedOrder.Unify.entries (ipString ip) (UnifiedOrder.Unify.final rnd o)))) := by
  unfold UnifiedOrder.Unify.assemble
  lift_lets
  extract_lets data0 data1 data2 data3 o1 data4 o2 data5 data6 data7 data8 data9 data10 data11 o3
  have e2 : o2.Body = o.Body ∧ o2.OutTradeNo = o.OutTradeNo ∧ o2.TotalFee = o.TotalFee ∧
      o2.SPBillCreateIP = o.SPBillCreateIP ∧ o2.NotifyURL = o.NotifyURL ∧
      o2.OpenID = o.OpenID := by
    simp only [o2, o1]
    split <;> simp
  obtain ⟨eb, eo, et, es, en, ei⟩ := e2
  have ei3 : o3.OpenID = o.OpenID := ei
  have hs : o2 = UnifiedOrder.Unify.stamped rnd o := rfl
  have hf : o3 = UnifiedOrder.Unify.final rnd o := rfl
  rw [eb, eo, et, es, en, ei3]
  by_cases h1 : o.AppID = ""
  · rw [if_pos h1, if_pos h1]
  rw [if_neg h1, if_neg h1]
  by_cases h2 : o.MchID = ""
  · rw [if_pos h2, if_pos h2]
  rw [if_neg h2, if_neg h2]
  by_cases h3 : o.Body = ""
  · rw [if_pos h3, if_pos h3, hs]
  rw [if_neg h3, if_neg h3]
  by_cases h4 : o.OutTradeNo = ""
  · rw [if_pos h4, if_pos h4, hs]
  rw [if_neg h4, if_neg h4]
  by_cases h5 : o.TotalFee = 0
  · rw [if_pos h5, if_pos h5, hs]
  rw [if_neg h5, if_neg h5]
  split
  · rename_i h6
    simp only [h6, hs]
  · rename_i ip h6
    lift_lets
    extract_lets data12 data13 data14 data15 data16 data17 data18 data19
    by_cases h7 : o.NotifyURL = ""
    · rw [if_pos h7, if_pos h7, hs]
    rw [if_neg h7, if_neg h7]
    by_cases h8 : o.OpenID = ""
    · rw [if_pos h8, if_pos h8, hf]
    rw [if_neg h8, if_neg h8]
    have ha : (UnifiedOrder.Unify.final rnd o).AppID = o.AppID := by
      simp only [UnifiedOrder.Unify.final, UnifiedOrder.Unify.stamped]
      split <;> rfl
    have hm : (UnifiedOrder.Unify.final rnd o).MchID = o.MchID := by
      simp only [UnifiedOrder.Unify.final, UnifiedOrder.Unify.stamped]
      split <;> rfl
    have hd : (UnifiedOrder.Unify.final rnd o).DeviceInfo = o.DeviceInfo := by
      simp only [UnifiedOrder.Unify.final, UnifiedOrder.Unify.stamped]
      split <;> rfl
    have hn : (UnifiedOrder.Unify.final rnd o).NotifyURL = o.NotifyURL := en
    have ho : (UnifiedOrder.Unify.final rnd o).OpenID = o.OpenID := ei
    rw [← StrMap.build_eq _ (unify_entries_keys _ _)]
    simp only [StrMap.build, UnifiedOrder.Unify.entries, List.foldl_cons, List.foldl_nil, ha, hm,
      hd, hn, ho]
    rfl


theorem unify_assemble_ok_inv (ipString : List UInt8 → String) (rnd : Nat → Nat)
    (o o2 : UnifiedOrder) (data : StrMap)
    (h : UnifiedOrder.Unify.assemble ipString rnd o = (o2, .ok data)) :
    o2 = UnifiedOrder.Unify.final rnd o ∧
    ∃ ip, o.SPBillCreateIP = some ip ∧
      data = StrMap.present
        (UnifiedOrder.Unify.entries (ipString ip) (UnifiedOrder.Unify.final rnd o)) := by
  rw [unify_assemble_eq] at h
  repeat' split at h
  all_goals simp only [Prod.mk.injEq, reduceCtorEq, and_false, Except.ok.injEq] at h
  rename_i ip hip _ _
  exact ⟨h.1.symm, ip, hip, h.2.symm⟩

theorem unify_assemble_fst (ipString : List UInt8 → String) (rnd : Nat → Nat)
    (o : UnifiedOrder) :
    (UnifiedOrder.Unify.assemble ipString rnd o).1 = o ∨
    (UnifiedOrder.Unify.assemble ipString rnd o).1 = UnifiedOrder.Unify.stamped rnd o ∨
    (UnifiedOrder.Unify.assemble ipString rnd o).1 = UnifiedOrder.Unify.final rnd o := by
  rw [unify_assemble_eq]
  repeat' split
  all_goals simp

theorem unify_assemble_error (ipString : List UInt8 → String) (rnd : Nat → Nat)
    (o : UnifiedOrder) (e : String)
    (h : UnifiedOrder.Unify.firstViolation o = some e) :
    (UnifiedOrder.Unify.assemble ipString rnd o).2 = .error e := by
  rw [unify_assemble_eq]
  simp only [UnifiedOrder.Unify.firstViolation, UnifiedOrder.Unify.preconditions] at h
  by_cases h1 : o.AppID = ""
  · simp_all
  by_cases h2 : o.MchID = ""
  · simp_all
  by_cases h3 : o.Body = ""
  · simp_all
  by_cases h4 : o.OutTradeNo = ""
  · simp_all
  by_cases h5 : o.TotalFee = 0
  · simp_all
  cases h6 : o.SPBillCreateIP with
  | none => simp_all
  | some ip =>
    by_cases h7 : o.NotifyURL = ""
    · simp_all
    by_cases h8 : o.OpenID = ""
    · simp_all
    simp_all

theorem unify_recv (d : Deps UnifiedOrder UnifiedOrderResponse) (rnd : Nat → Nat)
    (o : UnifiedOrder) :
    ∃ s, (UnifiedOrder.Unify d rnd o).recv =
        { (UnifiedOrder.Unify.assemble d.IPString rnd o).1 with Sign := s } ∧
      ∀ data sign, (UnifiedOrder.Unify.assemble d.IPString rnd o).2 = .ok data →
        d.SignByMD5 data = .ok sign → s = sign := by
  rcases h1 : UnifiedOrder.Unify.assemble d.IPString rnd o with ⟨o1, r1⟩
  cases r1 with
  | error e0 => exact ⟨o1.Sign, by simp [UnifiedOrder.Unify, h1], by simp⟩
  | ok data0 =>
    cases h2 : d.SignByMD5 data0 with
    | error e =>
      refine ⟨o1.Sign, by simp [UnifiedOrder.Unify, h1, h2], ?_⟩
      intro data s hd hs
      simp only [Except.ok.injEq] at hd
      subst hd
      rw [h2] at hs
      cases hs
    | ok sign =>
      refine ⟨sign, ?_, ?_⟩
      · simp only [UnifiedOrder.Unify, h1, h2]
        repeat' split
        all_goals rfl
      · intro data s hd hs
        simp only [Except.ok.injEq] at hd
        subst hd
        rw [h2] at hs
        exact (Except.ok.inj hs)

/-! ### Order of the local checks (unifiedorder.go) -/

/-- Claim C15, refuted as stated: the order of scenario S1 with `total_fee`
-1 and no `open_id` violates the pre-condition `total_fee > 0` of the
specification first, but `Unify` returns the error of `open_id`; and the
order of scenario S1 with `total_fee` -1 violates that pre-condition and
`Unify` returns no local error at all. -/
theorem Unify_skips_negative_total_fee :
    UnifiedOrder.Unify.specFirstViolation { sample.order with TotalFee := -1, OpenID := "" }
      = some "total_fee 不能为空" ∧
    (UnifiedOrder.Unify (sample.unifyDeps sample.okResponse) sample.rnd
        { sample.order with TotalFee := -1, OpenID := "" }).ret = .error "openid 不能为空" ∧
    UnifiedOrder.Unify.specFirstViolation { sample.order with TotalFee := -1 }
      = some "total_fee 不能为空" ∧
    (UnifiedOrder.Unify (sample.unifyDeps sample.okResponse) sample.rnd
        { sample.order with TotalFee := -1 }).ret = .ok sample.okResponse := by
  decide

/-- Claim C15, amended: the error messages of the eight local checks of
`Unify` (missing `app_id`, `mch_id`, `body`, `out_trade_no`, `total_fee`,
`spbill_create_ip`, `notify_url`, `open_id`) are pairwise different; with the
pre-condition on `total_fee` read as `total_fee` different from zero, an
order that violates at least one pre-condition gets the error of the first
one violated in that order, and no collaborator is called; an order that
violates none reaches the signer; and for an order whose `total_fee` is not
negative these pre-conditions are those of the specification. -/
theorem Unify_first_violation (d : Deps UnifiedOrder UnifiedOrderResponse)
    (rnd : Nat → Nat) (o : UnifiedOrder) :
    ((UnifiedOrder.Unify.preconditions o).map fun p => p.2).Nodup ∧
    (∀ e, UnifiedOrder.Unify.firstViolation o = some e →
      (UnifiedOrder.Unify d rnd o).ret = .error e ∧ (UnifiedOrder.Unify d rnd o).calls = []) ∧
    ((∃ p ∈ UnifiedOrder.Unify.preconditions o, p.1 = true) →
      ∃ e, UnifiedOrder.Unify.firstViolation o = some e) ∧
    (UnifiedOrder.Unify.firstViolation o = none →
      ∃ data, (UnifiedOrder.Unify d rnd o).calls.head? = some (.SignByMD5 data)) ∧
    (0 ≤ o.TotalFee →
      UnifiedOrder.Unify.specFirstViolation o = UnifiedOrder.Unify.firstViolation o) := by
  refine ⟨?_, ?_, ?_, ?_, ?_⟩
  rotate_right
  · intro h0
    have hd : decide (¬ 0 < o.TotalFee) = decide (o.TotalFee = 0) := by
      apply decide_eq_decide.2
      omega
    simp only [UnifiedOrder.Unify.specFirstViolation, UnifiedOrder.Unify.specPreconditions,
      UnifiedOrder.Unify.firstViolation, UnifiedOrder.Unify.preconditions, hd]
  · simp only [UnifiedOrder.Unify.preconditions, List.map_cons, List.map_nil]
    decide
  · intro e he
    have h := unify_assemble_error d.IPString rnd o e he
    exact ⟨((unify_calls_of_assemble d rnd o).1 e h).2, ((unify_calls_of_assemble d rnd o).1 e h).1⟩
  · rintro ⟨p, hp, hv⟩
    cases hf : (UnifiedOrder.Unify.preconditions o).find? fun p => p.1 with
    | none =>
      rw [List.find?_eq_none] at hf
      exact absurd hv (hf p hp)
    | some q => exact ⟨q.2, by simp [UnifiedOrder.Unify.firstViolation, hf]⟩
  · intro hn
    have hall : o.AppID ≠ "" ∧ o.MchID ≠ "" ∧ o.Body ≠ "" ∧ o.OutTradeNo ≠ "" ∧
        o.NotifyURL ≠ "" ∧ o.OpenID ≠ "" ∧ o.SPBillCreateIP ≠ none ∧ o.TotalFee ≠ 0 := by
      simp only [UnifiedOrder.Unify.firstViolation, Option.map_eq_none', List.find?_eq_none,
        UnifiedOrder.Unify.preconditions] at hn
      simp only [List.mem_cons, List.mem_singleton, List.not_mem_nil, or_false,
        forall_eq_or_imp, forall_eq, decide_eq_true_eq] at hn
      tauto
    obtain ⟨data, hd⟩ := (unify_assemble_ok_iff d.IPString rnd o).2 hall
    exact ⟨data, (unify_calls_of_assemble d rnd o).2 data hd⟩

/-- Claim C15, amended, at concrete orders: an order with neither `body` nor
`notify_url` is rejected with the error of `body`, the earlier of the two,
and the order of scenario S1 reaches the signer. -/
theorem Unify_first_violation_witness :
    (UnifiedOrder.Unify (sample.unifyDeps sample.okResponse) sample.rnd
        { sample.order with Body := "", NotifyURL := "" }).ret = .error "body 不能为空" ∧
    (∃ data, (UnifiedOrder.Unify (sample.unifyDeps sample.okResponse) sample.rnd
        sample.order).calls.head? = some (.SignByMD5 data)) :=
  ⟨((Unify_first_violation (sample.unifyDeps sample.okResponse) sample.rnd
      { sample.order with Body := "", NotifyURL := "" }).2.1 "body 不能为空" (by decide)).1,
   (Unify_first_violation (sample.unifyDeps sample.okResponse) sample.rnd
      sample.order).2.2.2.1 (by decide)⟩

/-! ### The nonce (util.go) -/

theorem NonceStr_toList (rnd : Nat → Nat) (n : Int) :
    (util.NonceStr rnd n).toList =
      (List.range n.toNat).map fun idx =>
        util.NonceStr.base.getD (rand.Intn rnd idx util.NonceStr.base.length) '?' := rfl

theorem Intn_lt_base (rnd : Nat → Nat) (idx : Nat) :
    rand.Intn rnd idx util.NonceStr.base.length < util.NonceStr.base.length := by
  unfold rand.Intn
  exact Nat.mod_lt _ (by decide)

theorem NonceStr_length (rnd : Nat → Nat) (n : Int) :
    (util.NonceStr rnd n).length = n.toNat := by
  rw [String.length, ← String.toList, NonceStr_toList]
  simp

theorem NonceStr_mem_base (rnd : Nat → Nat) (n : Int) :
    ∀ c ∈ (util.NonceStr rnd n).toList, c ∈ util.NonceStr.base := by
  intro c hc
  rw [NonceStr_toList] at hc
  simp only [List.mem_map, List.mem_range] at hc
  obtain ⟨idx, _, rfl⟩ := hc
  have hb := Intn_lt_base rnd idx
  rw [List.getD_eq_getElem?_getD, List.getElem?_eq_getElem hb]
  exact List.getElem_mem _

/-- Claim C16: `util.NonceStr` is total; for every length `n` and every
random source its result has `n` characters when `n` is not negative and is
empty when `n` is zero or negative; every index drawn by `rand.Intn` is within
the 36-character alphabet a-z0-9, and the character at each position is the
character of the alphabet at the index drawn for that position. -/
theorem NonceStr_length_and_alphabet (rnd : Nat → Nat) (n : Int) :
    (util.NonceStr rnd n).length = n.toNat ∧
    (0 ≤ n → ((util.NonceStr rnd n).length : Int) = n) ∧
    (n ≤ 0 → util.NonceStr rnd n = "") ∧
    util.NonceStr.base = "abcdefghijklmnopqrstuvwxyz0123456789".toList ∧
    util.NonceStr.base.length = 36 ∧
    (∀ idx, rand.Intn rnd idx 36 < util.NonceStr.base.length) ∧
    (∀ idx, idx < n.toNat →
      (util.NonceStr rnd n).toList[idx]? = util.NonceStr.base[rand.Intn rnd idx 36]?) ∧
    (∀ c ∈ (util.NonceStr rnd n).toList, c ∈ util.NonceStr.base) := by
  have hlen := NonceStr_length rnd n
  have h36 : util.NonceStr.base.length = 36 := by decide
  refine ⟨hlen, ?_, ?_, rfl, h36, ?_, ?_, NonceStr_mem_base rnd n⟩
  · intro h0
    rw [hlen]
    exact Int.toNat_of_nonneg h0
  · intro h0
    have hz : n.toNat = 0 := Int.toNat_eq_zero.2 h0
    apply String.ext
    rw [← String.toList, NonceStr_toList, hz]
    rfl
  · intro idx
    rw [← h36]
    exact Intn_lt_base rnd idx
  · intro idx hidx
    have hb := Intn_lt_base rnd idx
    rw [NonceStr_toList, ← h36]
    simp [hidx, List.getD_eq_getElem?_getD, List.getElem?_eq_getElem hb]

/-- Claim C16 at concrete inputs: six draws give a string of six characters,
and a negative length gives the empty string. -/
theorem NonceStr_length_and_alphabet_witness :
    ((util.NonceStr sample.rnd 6).length : Int) = 6 ∧ util.NonceStr sample.rnd (-3) = "" ∧
    util.NonceStr sample.rnd 6 = "dkry5c" :=
  ⟨(NonceStr_length_and_alphabet sample.rnd 6).2.1 (by decide),
   (NonceStr_length_and_alphabet sample.rnd (-3)).2.2.1 (by decide), by decide⟩

/-! ### Entries of the signed map and of the envelope (unifiedorder.go) -/

theorem StrMap.mem_of_find (m : StrMap) (k v : String) (h : m.find k = some v) :
    (k, v) ∈ m := by
  induction m with
  | nil => simp [StrMap.find] at h
  | cons a m ih =>
    obtain ⟨k1, v1⟩ := a
    simp only [StrMap.find] at h
    by_cases hk : k1 = k
    · simp only [hk, if_true, Option.some.injEq] at h
      simp [hk, h]
    · simp only [hk, if_false] at h
      exact List.mem_cons_of_mem _ (ih h)

theorem StrMap.find_of_mem (m : StrMap) (k v : String) (hn : m.keys.Nodup)
    (h : (k, v) ∈ m) : m.find k = some v := by
  induction m with
  | nil => simp at h
  | cons a m ih =>
    obtain ⟨k1, v1⟩ := a
    simp only [StrMap.keys, List.map_cons, List.nodup_cons] at hn
    simp only [StrMap.find]
    rcases List.mem_cons.1 h with h | h
    · simp only [Prod.mk.injEq] at h
      simp [h.1, h.2]
    · have hk : k1 ≠ k := by
        intro e
        apply hn.1
        rw [e]
        exact List.mem_map_of_mem Prod.fst h
      simp only [hk, if_false]
      exact ih hn.2 h

theorem StrMap.mem_present (es : List Entry) (k v : String) :
    (k, v) ∈ StrMap.present es ↔ ∃ e ∈ es, e.present ∧ e.key = k ∧ e.value = v := by
  simp only [StrMap.present, List.mem_map, List.mem_filter, decide_eq_true_eq, Prod.mk.injEq]
  constructor
  · rintro ⟨e, ⟨he, hp⟩, hk, hv⟩
    exact ⟨e, he, hp, hk, hv⟩
  · rintro ⟨e, he, hp, hk, hv⟩
    exact ⟨e, ⟨he, hp⟩, hk, hv⟩

theorem StrMap.present_keys_nodup (es : List Entry) (h : (es.map (·.key)).Nodup) :
    (StrMap.present es).keys.Nodup := by
  have hsub : List.Sublist (StrMap.present es).keys (es.map (·.key)) := by
    simp only [StrMap.present, StrMap.keys, List.map_map]
    exact (List.filter_sublist es).map _
  exact h.sublist hsub

theorem xml_entries_keys (ipText : String) (o : UnifiedOrder) :
    ((UnifiedOrder.xmlEntries ipText o).map (·.key)).Nodup := by
  simp [UnifiedOrder.xmlEntries]

theorem unify_calls_head_inv (d : Deps UnifiedOrder UnifiedOrderResponse)
    (rnd : Nat → Nat) (o : UnifiedOrder) (data : StrMap)
    (h : (UnifiedOrder.Unify d rnd o).calls.head? = some (.SignByMD5 data)) :
    (UnifiedOrder.Unify.assemble d.IPString rnd o).2 = .ok data := by
  have hc := unify_calls_of_assemble d rnd o
  cases hr : (UnifiedOrder.Unify.assemble d.IPString rnd o).2 with
  | error e =>
    rw [(hc.1 e hr).1] at h
    simp at h
  | ok data0 =>
    rw [hc.2 data0 hr] at h
    simp only [Option.some.injEq, Call.SignByMD5.injEq] at h
    rw [h]

theorem unify_signed (d : Deps UnifiedOrder UnifiedOrderResponse)
    (rnd : Nat → Nat) (o : UnifiedOrder) (data : StrMap)
    (h : (UnifiedOrder.Unify d rnd o).calls.head? = some (.SignByMD5 data)) :
    ∃ ip s, o.SPBillCreateIP = some ip ∧
      data = StrMap.present
        (UnifiedOrder.Unify.entries (d.IPString ip) (UnifiedOrder.Unify.final rnd o)) ∧
      (UnifiedOrder.Unify d rnd o).recv = { UnifiedOrder.Unify.final rnd o with Sign := s } ∧
      ∀ sign, d.SignByMD5 data = .ok sign → s = sign := by
  have hd := unify_calls_head_inv d rnd o data h
  rcases ha : UnifiedOrder.Unify.assemble d.IPString rnd o with ⟨o2, r⟩
  rw [ha] at hd
  simp only at hd
  subst hd
  obtain ⟨ho2, ip, hip, hdata⟩ := unify_assemble_ok_inv d.IPString rnd o o2 data ha
  obtain ⟨s, hs, hsign⟩ := unify_recv d rnd o
  rw [ha] at hs hsign
  refine ⟨ip, s, hip, hdata, ?_, fun sign h2 => hsign data sign rfl h2⟩
  rw [hs, ho2]

theorem final_fields (rnd : Nat → Nat) (o : UnifiedOrder) :
    (UnifiedOrder.Unify.final rnd o).SignType = "MD5" ∧
    (UnifiedOrder.Unify.final rnd o).TradeType = "JSAPI" ∧
    (UnifiedOrder.Unify.final rnd o).SPBillCreateIP = o.SPBillCreateIP ∧
    (UnifiedOrder.Unify.final rnd o).NonceStr =
      (if o.NonceStr = "" then util.NonceStr rnd 6 else o.NonceStr) ∧
    { UnifiedOrder.Unify.final rnd o with
        NonceStr := o.NonceStr, SignType := o.SignType, TradeType := o.TradeType } = o := by
  refine ⟨rfl, rfl, ?_, ?_, ?_⟩
  · unfold UnifiedOrder.Unify.final UnifiedOrder.Unify.stamped
    by_cases hn : o.NonceStr = ""
    · rw [if_pos hn]
    · rw [if_neg hn]
  · unfold UnifiedOrder.Unify.final UnifiedOrder.Unify.stamped
    by_cases hn : o.NonceStr = ""
    · rw [if_pos hn, if_pos hn]
    · rw [if_neg hn, if_neg hn]
  · unfold UnifiedOrder.Unify.final UnifiedOrder.Unify.stamped
    by_cases hn : o.NonceStr = ""
    · rw [if_pos hn]
    · rw [if_neg hn]

theorem entries_match (ipText sign : String) (rnd : Nat → Nat) (o : UnifiedOrder)
    (k v : String) :
    (k, v) ∈ StrMap.present (UnifiedOrder.Unify.entries ipText (UnifiedOrder.Unify.final rnd o)) ↔
      ((k, v) ∈ StrMap.present
          (UnifiedOrder.xmlEntries ipText { UnifiedOrder.Unify.final rnd o with Sign := sign }) ∧
        k ≠ "sign") := by
  obtain ⟨hst, htt, _, _, _⟩ := final_fields rnd o
  simp only [StrMap.mem_present, UnifiedOrder.Unify.entries, UnifiedOrder.xmlEntries,
    List.mem_cons, List.mem_singleton, List.not_mem_nil, or_false, exists_eq_or_imp,
    exists_eq_left, hst, strconv.Itoa, true_and, ne_eq]
  have hmd5 : ¬ ("MD5" : String) = "" := by decide
  by_cases hk : k = "sign"
  · subst hk
    simp
  · have hk2 : ¬ "sign" = k := fun e => hk e.symm
    simp only [hmd5, hk, hk2, not_false_eq_true, true_and, false_and, false_or, and_true]
    refine Iff.of_eq ?_
    ac_rfl

theorem unify_data_find (ipText : String) (o : UnifiedOrder) (k v : String)
    (h : ∃ e ∈ UnifiedOrder.Unify.entries ipText o, e.present ∧ e.key = k ∧ e.value = v) :
    (StrMap.present (UnifiedOrder.Unify.entries ipText o)).find k = some v :=
  StrMap.find_of_mem _ k v (StrMap.present_keys_nodup _ (unify_entries_keys ipText o))
    ((StrMap.mem_present _ k v).2 h)

theorem unify_marshal_call (d : Deps UnifiedOrder UnifiedOrderResponse)
    (rnd : Nat → Nat) (o : UnifiedOrder) (data : StrMap) (sign : String)
    (hcall : (UnifiedOrder.Unify d rnd o).calls.head? = some (.SignByMD5 data))
    (hsign : d.SignByMD5 data = .ok sign) :
    (UnifiedOrder.Unify d rnd o).calls[1]? = some (.Marshal (UnifiedOrder.Unify d rnd o).recv) := by
  have hd := unify_calls_head_inv d rnd o data hcall
  rcases ha : UnifiedOrder.Unify.assemble d.IPString rnd o with ⟨o2, r⟩
  rw [ha] at hd
  simp only at hd
  subst hd
  simp only [UnifiedOrder.Unify, ha, hsign]
  repeat' split
  all_goals rfl

theorem mem_map_charData (m : StrMap) (k v : String) :
    (k, v) ∈ m.map (fun kv => (kv.1, xml.charData kv.2)) ↔
      ∃ v0, (k, v0) ∈ m ∧ v = xml.charData v0 := by
  simp only [List.mem_map, Prod.mk.injEq, Prod.exists]
  constructor
  · rintro ⟨a, b, hab, rfl, rfl⟩
    exact ⟨b, hab, rfl⟩
  · rintro ⟨v0, hm, rfl⟩
    exact ⟨k, v0, hm, rfl, rfl⟩

/-- Claim C11, refuted as stated: for the order of scenario S1 with a `body`
that contains the character U+0001, which passes the local checks with a
4-byte address, the signed map binds `body` to that text, while the `body`
child of the envelope marshalled next (the order as `Unify` leaves it) reads
with U+FFFD in place of U+0001. -/
theorem Unify_envelope_body_differs_from_signed :
    (UnifiedOrder.Unify (sample.unifyDeps sample.okResponse) sample.rnd
        { sample.order with Body := "a\x01b" }).calls.head?
      = some (.SignByMD5
          [("appid", "wx1"), ("mch_id", "100"), ("nonce_str", "abcdef"), ("sign_type", "MD5"),
           ("body", "a\x01b"), ("out_trade_no", "T1"), ("total_fee", "1"),
           ("spbill_create_ip", "127.0.0.1"), ("notify_url", "http://x"),
           ("trade_type", "JSAPI"), ("openid", "OID")]) ∧
    (UnifiedOrder.Unify (sample.unifyDeps sample.okResponse) sample.rnd
        { sample.order with Body := "a\x01b" }).calls[1]?
      = some (.Marshal (UnifiedOrder.Unify (sample.unifyDeps sample.okResponse) sample.rnd
          { sample.order with Body := "a\x01b" }).recv) ∧
    (UnifiedOrder.xmlChildren sample.ipString
        (UnifiedOrder.Unify (sample.unifyDeps sample.okResponse) sample.rnd
          { sample.order with Body := "a\x01b" }).recv).map (fun fields => fields.find "body")
      = .ok (some "a\uFFFDb") ∧
    ("a\uFFFDb" : String) ≠ "a\x01b" := by
  refine ⟨by decide, rfl, rfl, by decide⟩

/-- Claim C11, amended: when `Unify` reaches the signer with the map `data`,
the signer returns `sign`, and `spbill_create_ip` has 4 or 16 bytes, the next
collaborator call marshals the order as `Unify` leaves it, and the children
`fields` of that envelope are such that a name other than `sign` is a child
exactly when it is a key of `data`, the text of the child being the signed
value with every character outside the XML range replaced by U+FFFD; no key
occurs twice on either side; the envelope has exactly one `sign` child, made
from the signature computed on `data`; and when every signed value consists
of characters of the XML range, the entries of `data` are exactly the
children other than `sign`, with the same text. -/
theorem Unify_signed_map_matches_envelope (d : Deps UnifiedOrder UnifiedOrderResponse)
    (rnd : Nat → Nat) (o : UnifiedOrder) (data : StrMap) (sign : String) (ip : List UInt8)
    (hcall : (UnifiedOrder.Unify d rnd o).calls.head? = some (.SignByMD5 data))
    (hsign : d.SignByMD5 data = .ok sign)
    (hip : o.SPBillCreateIP = some ip) (hlen : ip.length = 4 ∨ ip.length = 16) :
    ∃ env fields,
      (UnifiedOrder.Unify d rnd o).calls[1]? = some (.Marshal env) ∧
      env = (UnifiedOrder.Unify d rnd o).recv ∧
      UnifiedOrder.xmlChildren d.IPString env = .ok fields ∧
      fields.keys.Nodup ∧ data.keys.Nodup ∧
      (∀ k v, ((k, v) ∈ fields ∧ k ≠ "sign") ↔ ∃ v0, (k, v0) ∈ data ∧ v = xml.charData v0) ∧
      (∀ v, ("sign", v) ∈ fields ↔ v = xml.charData sign) ∧
      ((∀ k v, (k, v) ∈ data → xml.charData v = v) →
        ∀ k v, (k, v) ∈ data ↔ ((k, v) ∈ fields ∧ k ≠ "sign")) := by
  have hmar := unify_marshal_call d rnd o data sign hcall hsign
  obtain ⟨ip2, s, hip2, hdata, hrecv, hs⟩ := unify_signed d rnd o data hcall
  have hss : s = sign := hs sign hsign
  subst hss
  have hipeq : ip2 = ip := by
    rw [hip] at hip2
    exact (Option.some.inj hip2).symm
  subst hipeq
  have hfip : (UnifiedOrder.Unify.final rnd o).SPBillCreateIP = some ip2 := by
    rw [(final_fields rnd o).2.2.1, hip]
  have hl0 : ip2.length ≠ 0 := by omega
  have hl1 : ¬ (ip2.length ≠ 4 ∧ ip2.length ≠ 16) := by omega
  have hgen : ∀ k v,
      ((k, v) ∈ (StrMap.present (UnifiedOrder.xmlEntries (d.IPString ip2)
          { UnifiedOrder.Unify.final rnd o with Sign := s })).map
            (fun kv => (kv.1, xml.charData kv.2)) ∧ k ≠ "sign") ↔
        ∃ v0, (k, v0) ∈ data ∧ v = xml.charData v0 := by
    intro k v
    rw [mem_map_charData, hdata]
    constructor
    · rintro ⟨⟨v0, hm, hv⟩, hk⟩
      exact ⟨v0, (entries_match (d.IPString ip2) s rnd o k v0).2 ⟨hm, hk⟩, hv⟩
    · rintro ⟨v0, hm, hv⟩
      have h2 := (entries_match (d.IPString ip2) s rnd o k v0).1 hm
      exact ⟨⟨v0, h2.1, hv⟩, h2.2⟩
  refine ⟨(UnifiedOrder.Unify d rnd o).recv,
    (StrMap.present (UnifiedOrder.xmlEntries (d.IPString ip2)
      { UnifiedOrder.Unify.final rnd o with Sign := s })).map
        (fun kv => (kv.1, xml.charData kv.2)),
    hmar, rfl, ?_, ?_, ?_, hgen, ?_, ?_⟩
  · rw [hrecv]
    simp only [UnifiedOrder.xmlChildren, hfip, net.IP.MarshalText, hl0, hl1, if_false]
  · have hk := StrMap.present_keys_nodup _
      (xml_entries_keys (d.IPString ip2) { UnifiedOrder.Unify.final rnd o with Sign := s })
    simpa [StrMap.keys, List.map_map, Function.comp_def] using hk
  · rw [hdata]
    exact StrMap.present_keys_nodup _ (unify_entries_keys _ _)
  · intro v
    rw [mem_map_charData]
    simp [StrMap.mem_present, UnifiedOrder.xmlEntries, eq_comm]
  · intro hclean k v
    constructor
    · intro hm
      exact (hgen k v).2 ⟨v, hm, (hclean k v hm).symm⟩
    · intro hf
      obtain ⟨v0, hm, hv⟩ := (hgen k v).1 hf
      rw [hv, hclean k v0 hm]
      exact hm

/-- Claim C11, amended, at scenario S1: with the stand-in signer the second
collaborator call marshals the order as `Unify` leaves it, every signed value
is plain ASCII, and the envelope has the signed `total_fee` entry and the
`sign` child. -/
theorem Unify_signed_map_matches_envelope_witness :
    ∃ fields,
      (UnifiedOrder.Unify (sample.unifyDeps sample.okResponse) sample.rnd sample.order).calls[1]?
        = some (.Marshal
            (UnifiedOrder.Unify (sample.unifyDeps sample.okResponse) sample.rnd
              sample.order).recv) ∧
      UnifiedOrder.xmlChildren sample.ipString
        (UnifiedOrder.Unify (sample.unifyDeps sample.okResponse) sample.rnd sample.order).recv
        = .ok fields ∧
      ("total_fee", "1") ∈ fields ∧
      ("sign", "appid=wx1&mch_id=100&nonce_str=abcdef&sign_type=MD5&body=test&out_trade_no=T1&total_fee=1&spbill_create_ip=127.0.0.1&notify_url=http://x&trade_type=JSAPI&openid=OID")
        ∈ fields :=
  have h := Unify_signed_map_matches_envelope (sample.unifyDeps sample.okResponse) sample.rnd
    sample.order
    [("appid", "wx1"), ("mch_id", "100"), ("nonce_str", "abcdef"), ("sign_type", "MD5"),
     ("body", "test"), ("out_trade_no", "T1"), ("total_fee", "1"),
     ("spbill_create_ip", "127.0.0.1"), ("notify_url", "http://x"),
     ("trade_type", "JSAPI"), ("openid", "OID")]
    "appid=wx1&mch_id=100&nonce_str=abcdef&sign_type=MD5&body=test&out_trade_no=T1&total_fee=1&spbill_create_ip=127.0.0.1&notify_url=http://x&trade_type=JSAPI&openid=OID"
    [127, 0, 0, 1] (by decide) (by decide) rfl (Or.inl rfl)
  h.elim fun env h2 => h2.elim fun fields hf =>
    ⟨fields, hf.2.1 ▸ hf.1, hf.2.1 ▸ hf.2.2.1,
      ((hf.2.2.2.2.2.2.2
        (fun k v hm => (by decide : ∀ kv ∈
          ([("appid", "wx1"), ("mch_id", "100"), ("nonce_str", "abcdef"), ("sign_type", "MD5"),
            ("body", "test"), ("out_trade_no", "T1"), ("total_fee", "1"),
            ("spbill_create_ip", "127.0.0.1"), ("notify_url", "http://x"),
            ("trade_type", "JSAPI"), ("openid", "OID")] : StrMap),
          xml.charData kv.2 = kv.2) (k, v) hm)
        "total_fee" "1").1 (by decide)).1,
      (hf.2.2.2.2.2.2.1 _).2 rfl⟩

/-! ### Fields written by `Unify` (unifiedorder.go) -/

theorem base_alphanumeric : ∀ c ∈ util.NonceStr.base, c.isAlphanum = true := by
  decide

theorem stamped_nonce (rnd : Nat → Nat) (o : UnifiedOrder) :
    (UnifiedOrder.Unify.stamped rnd o).NonceStr =
      (if o.NonceStr = "" then util.NonceStr rnd 6 else o.NonceStr) :=
  (final_fields rnd o).2.2.2.1

/-- Claim C13, refuted as stated: for the order of scenario S1 with no
`nonce_str`, the nonce that `Unify` generates and signs has 6 characters, not
32. -/
theorem Unify_nonce_has_six_characters :
    (UnifiedOrder.Unify (sample.unifyDeps sample.okResponse) sample.rnd
        { sample.order with NonceStr := "" }).recv.NonceStr = "dkry5c" ∧
    (UnifiedOrder.Unify (sample.unifyDeps sample.okResponse) sample.rnd
        { sample.order with NonceStr := "" }).recv.NonceStr.length ≠ 32 ∧
    (UnifiedOrder.Unify (sample.unifyDeps sample.okResponse) sample.rnd
        { sample.order with NonceStr := "" }).calls.head?
      = some (.SignByMD5
          [("appid", "wx1"), ("mch_id", "100"), ("nonce_str", "dkry5c"), ("sign_type", "MD5"),
           ("body", "test"), ("out_trade_no", "T1"), ("total_fee", "1"),
           ("spbill_create_ip", "127.0.0.1"), ("notify_url", "http://x"),
           ("trade_type", "JSAPI"), ("openid", "OID")]) := by
  decide

/-- Claim C13, amended: for an order whose `nonce_str` is empty and whose
`app_id` and `mch_id` are set, `Unify` leaves in `NonceStr` the result of
`util.NonceStr(6)`: a string of exactly 6 characters, each from the alphabet
a-z0-9 and so alphanumeric; and when the signer is reached, that string is
the `nonce_str` entry of the signed map. -/
theorem Unify_generated_nonce (d : Deps UnifiedOrder UnifiedOrderResponse)
    (rnd : Nat → Nat) (o : UnifiedOrder)
    (hn : o.NonceStr = "") (ha : o.AppID ≠ "") (hm : o.MchID ≠ "") :
    (UnifiedOrder.Unify d rnd o).recv.NonceStr = util.NonceStr rnd 6 ∧
    (UnifiedOrder.Unify d rnd o).recv.NonceStr.length = 6 ∧
    (∀ c ∈ (UnifiedOrder.Unify d rnd o).recv.NonceStr.toList,
      c ∈ util.NonceStr.base ∧ c.isAlphanum = true) ∧
    (∀ data, (UnifiedOrder.Unify d rnd o).calls.head? = some (.SignByMD5 data) →
      data.find "nonce_str" = some (UnifiedOrder.Unify d rnd o).recv.NonceStr) := by
  have hrecv : (UnifiedOrder.Unify d rnd o).recv.NonceStr = util.NonceStr rnd 6 := by
    obtain ⟨s, hs, _⟩ := unify_recv d rnd o
    rw [hs]
    show (UnifiedOrder.Unify.assemble d.IPString rnd o).1.NonceStr = _
    have hst : (UnifiedOrder.Unify.stamped rnd o).NonceStr = util.NonceStr rnd 6 := by
      rw [stamped_nonce, if_pos hn]
    rw [unify_assemble_eq, if_neg ha, if_neg hm]
    repeat' split
    all_goals exact hst
  refine ⟨hrecv, ?_, ?_, ?_⟩
  · rw [hrecv]
    exact NonceStr_length rnd 6
  · intro c hc
    rw [hrecv] at hc
    exact ⟨NonceStr_mem_base rnd 6 c hc, base_alphanumeric c (NonceStr_mem_base rnd 6 c hc)⟩
  · intro data hcall
    obtain ⟨ip, s, _, hdata, hr, _⟩ := unify_signed d rnd o data hcall
    rw [hdata, hr]
    exact unify_data_find _ _ _ _
      ⟨{ present := True, key := "nonce_str",
         value := (UnifiedOrder.Unify.final rnd o).NonceStr },
        by simp [UnifiedOrder.Unify.entries], trivial, rfl, rfl⟩

/-- Claim C13, amended, at the order of scenario S1 without `nonce_str`. -/
theorem Unify_generated_nonce_witness :
    (UnifiedOrder.Unify (sample.unifyDeps sample.okResponse) sample.rnd
        { sample.order with NonceStr := "" }).recv.NonceStr.length = 6 :=
  (Unify_generated_nonce (sample.unifyDeps sample.okResponse) sample.rnd
    { sample.order with NonceStr := "" } rfl (by decide) (by decide)).2.1

/-- Claim C14, evaluated on the code: for the order of scenario S1 with
`sign_type` HMAC-SHA256 selected by the caller, `Unify` leaves `SignType` MD5
and signs a map whose `sign_type` entry is MD5, where the comment on
`SignType` (base.go, line 18) says that HMAC-SHA256 and MD5 are supported and
MD5 is the default. -/
theorem Unify_overwrites_hmac_sign_type :
    (UnifiedOrder.Unify (sample.unifyDeps sample.okResponse) sample.rnd
        { sample.order with SignType := "HMAC-SHA256" }).recv.SignType = "MD5" ∧
    (UnifiedOrder.Unify (sample.unifyDeps sample.okResponse) sample.rnd
        { sample.order with SignType := "HMAC-SHA256" }).calls.head?
      = some (.SignByMD5
          [("appid", "wx1"), ("mch_id", "100"), ("nonce_str", "abcdef"), ("sign_type", "MD5"),
           ("body", "test"), ("out_trade_no", "T1"), ("total_fee", "1"),
           ("spbill_create_ip", "127.0.0.1"), ("notify_url", "http://x"),
           ("trade_type", "JSAPI"), ("openid", "OID")]) := by
  decide

/-- What `Unify` does with `sign_type` (lines 86-87): for every order that
reaches the signer with the map `data`, the `SignType` of the request is MD5
and the `sign_type` entry of the signed map is MD5, whatever `sign_type` the
caller supplied. -/
theorem Unify_sign_type_is_md5 (d : Deps UnifiedOrder UnifiedOrderResponse)
    (rnd : Nat → Nat) (o : UnifiedOrder) (data : StrMap)
    (hcall : (UnifiedOrder.Unify d rnd o).calls.head? = some (.SignByMD5 data)) :
    (UnifiedOrder.Unify d rnd o).recv.SignType = "MD5" ∧
    data.find "sign_type" = some "MD5" := by
  obtain ⟨ip, s, _, hdata, hr, _⟩ := unify_signed d rnd o data hcall
  refine ⟨?_, ?_⟩
  · rw [hr]
    exact (final_fields rnd o).1
  · rw [hdata]
    exact unify_data_find _ _ _ _
      ⟨{ present := True, key := "sign_type", value := "MD5" },
        by simp [UnifiedOrder.Unify.entries], trivial, rfl, rfl⟩

theorem frame_of_sign (x o : UnifiedOrder) (s : String)
    (h : { x with NonceStr := o.NonceStr, SignType := o.SignType, TradeType := o.TradeType }
      = o) :
    ({ ({ x with Sign := s } : UnifiedOrder) with
        NonceStr := o.NonceStr, SignType := o.SignType, TradeType := o.TradeType,
        Sign := o.Sign } : UnifiedOrder) = o := by
  have h2 := congrArg (fun y : UnifiedOrder => ({ y with Sign := o.Sign } : UnifiedOrder)) h
  exact h2

theorem stamped_frame (rnd : Nat → Nat) (o : UnifiedOrder) :
    ({ UnifiedOrder.Unify.stamped rnd o with
        NonceStr := o.NonceStr, SignType := o.SignType, TradeType := o.TradeType }
      : UnifiedOrder) = o := by
  unfold UnifiedOrder.Unify.stamped
  by_cases hn : o.NonceStr = ""
  · rw [if_pos hn]
  · rw [if_neg hn]

/-- Claim C17: whatever the collaborators and the random source, the order
as `Unify` leaves it differs from the caller's order at most in `NonceStr`,
`SignType`, `TradeType` and `Sign`; a non-empty `nonce_str` of the caller is
kept; and when the signer is reached with the map `data`, the `nonce_str`
entry of `data` is the `NonceStr` of the order, `TradeType` is JSAPI and so is
the `trade_type` entry of `data`, and `Sign` is the signature returned. -/
theorem Unify_frame (d : Deps UnifiedOrder UnifiedOrderResponse) (rnd : Nat → Nat)
    (o : UnifiedOrder) :
    ({ (UnifiedOrder.Unify d rnd o).recv with
        NonceStr := o.NonceStr, SignType := o.SignType, TradeType := o.TradeType,
        Sign := o.Sign } : UnifiedOrder) = o ∧
    (o.NonceStr ≠ "" → (UnifiedOrder.Unify d rnd o).recv.NonceStr = o.NonceStr) ∧
    (∀ data, (UnifiedOrder.Unify d rnd o).calls.head? = some (.SignByMD5 data) →
      data.find "nonce_str" = some (UnifiedOrder.Unify d rnd o).recv.NonceStr ∧
      (UnifiedOrder.Unify d rnd o).recv.TradeType = "JSAPI" ∧
      data.find "trade_type" = some "JSAPI" ∧
      ∀ sign, d.SignByMD5 data = .ok sign → (UnifiedOrder.Unify d rnd o).recv.Sign = sign) := by
  obtain ⟨s, hs, _⟩ := unify_recv d rnd o
  refine ⟨?_, ?_, ?_⟩
  · rw [hs]
    apply frame_of_sign
    rcases unify_assemble_fst d.IPString rnd o with h | h | h
    · rw [h]
    · rw [h]
      exact stamped_frame rnd o
    · rw [h]
      exact (final_fields rnd o).2.2.2.2
  · intro hn
    rw [hs]
    show (UnifiedOrder.Unify.assemble d.IPString rnd o).1.NonceStr = o.NonceStr
    have hst : (UnifiedOrder.Unify.stamped rnd o).NonceStr = o.NonceStr := by
      rw [stamped_nonce, if_neg hn]
    rcases unify_assemble_fst d.IPString rnd o with h | h | h
    · rw [h]
    · rw [h]
      exact hst
    · rw [h]
      exact hst
  · intro data hcall
    obtain ⟨ip, s2, _, hdata, hr, hsig⟩ := unify_signed d rnd o data hcall
    refine ⟨?_, ?_, ?_, ?_⟩
    · rw [hdata, hr]
      exact unify_data_find _ _ _ _
        ⟨{ present := True, key := "nonce_str",
           value := (UnifiedOrder.Unify.final rnd o).NonceStr },
          by simp [UnifiedOrder.Unify.entries], trivial, rfl, rfl⟩
    · rw [hr]
      exact (final_fields rnd o).2.1
    · rw [hdata]
      exact unify_data_find _ _ _ _
        ⟨{ present := True, key := "trade_type",
           value := (UnifiedOrder.Unify.final rnd o).TradeType },
          by simp [UnifiedOrder.Unify.entries], trivial, rfl, (final_fields rnd o).2.1⟩
    · intro sign h2
      rw [hr, ← hsig sign h2]

/-- Claim C17 at the order of scenario S1 with `trade_type` NATIVE supplied
by the caller: the nonce abcdef is kept and `TradeType` becomes JSAPI. -/
theorem Unify_frame_witness :
    (UnifiedOrder.Unify (sample.unifyDeps sample.okResponse) sample.rnd
        { sample.order with TradeType := "NATIVE" }).recv.NonceStr = "abcdef" ∧
    (UnifiedOrder.Unify (sample.unifyDeps sample.okResponse) sample.rnd
        { sample.order with TradeType := "NATIVE" }).recv.TradeType = "JSAPI" :=
  ⟨(Unify_frame (sample.unifyDeps sample.okResponse) sample.rnd
      { sample.order with TradeType := "NATIVE" }).2.1 (by decide),
   ((Unify_frame (sample.unifyDeps sample.okResponse) sample.rnd
      { sample.order with TradeType := "NATIVE" }).2.2
      [("appid", "wx1"), ("mch_id", "100"), ("nonce_str", "abcdef"), ("sign_type", "MD5"),
       ("body", "test"), ("out_trade_no", "T1"), ("total_fee", "1"),
       ("spbill_create_ip", "127.0.0.1"), ("notify_url", "http://x"),
       ("trade_type", "JSAPI"), ("openid", "OID")] (by decide)).2.1⟩

/-! ### Refunded callback (notify/payment.go) -/

/-- What `ParseRefundedNotify` does on a non-empty body that decodes to
`rtf`: it calls the decryption, once and on `req_info`, exactly when
`return_code` is SUCCESS; otherwise it returns the error of `ReturnCheck`;
and a record it returns is `rtf` with the decoded plaintext attached. -/
theorem ParseRefundedNotify_transport_only
    (Unmarshal : List UInt8 → Except String RefundedNotify)
    (AesECBDecrypt : String → String → Except String String)
    (UnmarshalInfo : String → Except String RefundedReqInfo)
    (body : List UInt8) (key : String) (rtf : RefundedNotify)
    (hb : body ≠ []) (hd : Unmarshal body = .ok rtf) :
    ((ParseRefundedNotify Unmarshal AesECBDecrypt UnmarshalInfo body key).decrypts
        = [(rtf.ReqInfoStr, key)] ↔ rtf.ReturnCode = "SUCCESS") ∧
    (rtf.ReturnCode ≠ "SUCCESS" →
      (ParseRefundedNotify Unmarshal AesECBDecrypt UnmarshalInfo body key).decrypts = [] ∧
      ∃ e, rtf.ReturnCheck = some e ∧
        (ParseRefundedNotify Unmarshal AesECBDecrypt UnmarshalInfo body key).ret = .error e) ∧
    (∀ r, (ParseRefundedNotify Unmarshal AesECBDecrypt UnmarshalInfo body key).ret = .ok r →
      ∃ plain info, AesECBDecrypt rtf.ReqInfoStr key = .ok plain ∧
        UnmarshalInfo plain = .ok info ∧ r = { rtf with RefundedReqInfo := some info }) := by
  have hlen : body.length ≠ 0 := by simpa using hb
  unfold ParseRefundedNotify
  simp only [hlen, if_false, hd]
  cases hrc : rtf.ReturnCheck with
  | some e =>
    have hne : rtf.ReturnCode ≠ "SUCCESS" := by
      intro h
      rw [(ReturnCheck_eq_none _).2 h] at hrc
      cases hrc
    simp [hne]
  | none =>
    have hs := (ReturnCheck_eq_none _).1 hrc
    cases hdec : AesECBDecrypt rtf.ReqInfoStr key with
    | error e => simp [hs]
    | ok plain =>
      cases hinfo : UnmarshalInfo plain with
      | error e => simp [hs, hinfo]
      | ok info =>
        simp only [hs, hinfo, true_iff, ne_eq, not_true_eq_false, false_implies, true_and,
          Except.ok.injEq, exists_eq_left']
        intro r hr
        exact ⟨plain, info, rfl, hinfo, hr.symm⟩

/-- The business-layer codes are not consulted by `ParseRefundedNotify`: a
callback that differs only in `result_code` and `err_code` leads to the same
decryption call and to the same result up to these two fields. -/
theorem ParseRefundedNotify_ignores_result_code
    (Unmarshal : List UInt8 → Except String RefundedNotify)
    (AesECBDecrypt : String → String → Except String String)
    (UnmarshalInfo : String → Except String RefundedReqInfo)
    (body body2 : List UInt8) (key : String) (rtf : RefundedNotify) (rc ec : String)
    (hb : body ≠ []) (hb2 : body2 ≠ []) (hd : Unmarshal body = .ok rtf)
    (hd2 : Unmarshal body2 = .ok { rtf with ResultCode := rc, ErrCode := ec }) :
    (ParseRefundedNotify Unmarshal AesECBDecrypt UnmarshalInfo body2 key).decrypts =
      (ParseRefundedNotify Unmarshal AesECBDecrypt UnmarshalInfo body key).decrypts ∧
    (ParseRefundedNotify Unmarshal AesECBDecrypt UnmarshalInfo body2 key).ret =
      (ParseRefundedNotify Unmarshal AesECBDecrypt UnmarshalInfo body key).ret.map
        fun r => { r with ResultCode := rc, ErrCode := ec } := by
  have hlen : body.length ≠ 0 := by simpa using hb
  have hlen2 : body2.length ≠ 0 := by simpa using hb2
  have hck : BaseResponse.ReturnCheck
      ({ rtf with ResultCode := rc, ErrCode := ec } : RefundedNotify).toBaseResponse
      = rtf.ReturnCheck := rfl
  unfold ParseRefundedNotify
  simp only [hlen, hlen2, if_false, hd, hd2, hck]
  cases rtf.ReturnCheck with
  | some e => exact ⟨rfl, rfl⟩
  | none =>
    simp only []
    cases AesECBDecrypt rtf.ReqInfoStr key with
    | error e => exact ⟨rfl, rfl⟩
    | ok plain =>
      simp only []
      cases UnmarshalInfo plain with
      | error e => exact ⟨rfl, rfl⟩
      | ok info => exact ⟨rfl, rfl⟩

/-- Claim C12, evaluated on the code: two refunded callbacks with
`return_code` FAIL and the same `return_msg` that differ only in
`err_code_des` get different errors from `ParseRefundedNotify`, each the
`err_code_des` of the callback; neither run calls the decryption. -/
theorem ParseRefundedNotify_error_depends_on_err_code_des :
    (ParseRefundedNotify
        (fun _ => .ok { ReturnCode := "FAIL", ReturnMsg := "x", ErrCodeDes := "a" })
        (fun c _ => .ok c) (fun _ => .ok {}) sample.body "abc")
      = ⟨[], .error "a"⟩ ∧
    (ParseRefundedNotify
        (fun _ => .ok { ReturnCode := "FAIL", ReturnMsg := "x", ErrCodeDes := "b" })
        (fun c _ => .ok c) (fun _ => .ok {}) sample.body "abc")
      = ⟨[], .error "b"⟩ := by
  decide

end weapp
